import Mathlib

/-!
Shallow embedding of the Narrative Aggregation Cache & Fallback Orchestrator
(`backend/routes/narrative.py`) and proofs of the specification's claims about
it.

Modelling conventions:

* Python dynamic values are modelled by the inductive type `Val` (None, bool,
  int, float, str, list, dict).  Python floats are modelled as rationals;
  Python dicts as insertion-ordered association lists.
* Machine clocks (`time.time()`, `time.perf_counter()`) are external inputs:
  each request receives the instant at which it runs; the performance counter
  deltas (pure observability metadata) are modelled as zero.
* `hashlib`/`json` digesting (`_sha1_digest`) and `uuid` request ids are
  external stdlib collaborators and enter the model as oracle inputs.
* Collaborator calls (the four source fetchers and the generator) are oracle
  inputs of type `Except PyExn _`, mirroring "returns a value or raises".
  Their success types mirror the collaborators' declared return types
  (`get_today_games -> List[Dict]`, `fetch_moneyline_odds -> OddsResponse`,
  `fetch_player_props_for_today -> List[Dict]`,
  `get_trends_summary -> TrendsResponse`).
-/

namespace NarrativeSpec

/-- A Python exception, as observed by the route's `except Exception as e`
handlers: the class name (`type(e).__name__`) and the message (`str(e)`). -/
structure PyExn where
  name : String
  msg : String
  deriving DecidableEq

/-- The string `f"{type(e).__name__}: {e}"` used in the route's error texts. -/
def PyExn.text (e : PyExn) : String := e.name ++ ": " ++ e.msg

/-- A Python runtime value (the subset the route manipulates). -/
inductive Val where
  | vNone
  | vBool (b : Bool)
  | vInt (n : Int)
  | vFloat (q : ℚ)
  | vStr (s : String)
  | vList (xs : List Val)
  | vDict (d : List (String × Val))

/-- A Python dict value: insertion-ordered association list. -/
abbrev Dct := List (String × Val)

/-- Python truthiness (`bool(v)`). -/
def Val.truthy : Val → Bool
  | .vNone => false
  | .vBool b => b
  | .vInt n => n ≠ 0
  | .vFloat q => q ≠ 0
  | .vStr s => s ≠ ""
  | .vList xs => ¬xs.isEmpty
  | .vDict d => ¬d.isEmpty

/-- Python `a or b`. -/
def Val.orElse (a b : Val) : Val := if a.truthy then a else b

/-- Dict lookup (`d.get(k)` / `k in d` support). -/
def dget : Dct → String → Option Val
  | [], _ => none
  | (k', v) :: rest, k => if k' = k then some v else dget rest k

/-- Dict lookup with default (`d.get(k, dflt)`). -/
def dgetD (d : Dct) (k : String) (dflt : Val) : Val := (dget d k).getD dflt

/-- Dict item assignment (`d[k] = v`): replaces in place, else appends
(CPython dicts preserve insertion order and update in place). -/
def dset : Dct → String → Val → Dct
  | [], k, v => [(k, v)]
  | (k', v') :: rest, k, v =>
      if k' = k then (k', v) :: rest else (k', v') :: dset rest k v

/-- Dict `d.setdefault(k, v)` (effect on the dict). -/
def dsetdefault (d : Dct) (k : String) (v : Val) : Dct :=
  match dget d k with
  | some _ => d
  | none => d ++ [(k, v)]

/-- Dict `d.update(kvs)`: each key updated in place or appended in order. -/
def dupdate (d : Dct) (kvs : List (String × Val)) : Dct :=
  kvs.foldl (fun acc kv => dset acc kv.1 kv.2) d

/-- Whitespace for Python `str.strip()` (the route only ever strips ASCII). -/
def isPyWs (c : Char) : Bool :=
  c = ' ' ∨ c = '\t' ∨ c = '\n' ∨ c = '\r' ∨ c = '\x0b' ∨ c = '\x0c'

/-- Python `s.strip()`. -/
def pyStrip (s : String) : String :=
  ⟨((s.data.dropWhile isPyWs).reverse.dropWhile isPyWs).reverse⟩

/-- Python `s.lower()` (ASCII; the route's inputs are ASCII parameters). -/
def pyLower (s : String) : String := ⟨s.data.map Char.toLower⟩

/-- Python `sep.join(parts)`. -/
def joinSep (sep : String) : List String → String
  | [] => ""
  | [a] => a
  | a :: rest => a ++ sep ++ joinSep sep rest

/-- Python `len` on the values the route measures (lists, dicts, strings). -/
def pyLen : Val → Nat
  | .vList xs => xs.length
  | .vDict d => d.length
  | .vStr s => s.length
  | _ => 0

/-- Decimal rendering of a rational that CPython would print for the floats
the route produces (its floats are clamped/rounded to ≤ 2 decimals). -/
def ratToDecimalStr (q : ℚ) : String :=
  let sign := if q < 0 then "-" else ""
  let a := |q|
  let ip := ⌊a⌋.toNat
  let frac := a - ip
  if frac = 0 then sign ++ toString ip ++ ".0"
  else if (frac * 10).den = 1 then
    sign ++ toString ip ++ "." ++ toString (frac * 10).num.toNat
  else if (frac * 100).den = 1 then
    let cents := (frac * 100).num.toNat
    let tens := cents / 10
    let ones := cents % 10
    sign ++ toString ip ++ "." ++ toString tens ++ toString ones
  else sign ++ toString a.num ++ "/" ++ toString a.den

mutual

/-- Python `repr(v)` (used by `str` on containers; dict keys rendered
inline as quoted strings; the list/dict helpers spell out
`", ".join(...)` over the elements). -/
def pyRepr : Val → String
  | .vStr s => "'" ++ s ++ "'"
  | .vNone => "None"
  | .vBool b => if b then "True" else "False"
  | .vInt n => toString n
  | .vFloat q => ratToDecimalStr q
  | .vList xs => "[" ++ pyReprList xs ++ "]"
  | .vDict d => "\x7b" ++ pyReprDict d ++ "\x7d"

def pyReprList : List Val → String
  | [] => ""
  | [x] => pyRepr x
  | x :: rest => pyRepr x ++ ", " ++ pyReprList rest

def pyReprDict : List (String × Val) → String
  | [] => ""
  | [(k, v)] => "'" ++ k ++ "': " ++ pyRepr v
  | (k, v) :: rest => "'" ++ k ++ "': " ++ pyRepr v ++ ", " ++ pyReprDict rest

end

/-- Python `str(v)` for the values interpolated into the route's f-strings. -/
def pyStr : Val → String
  | .vStr s => s
  | v => pyRepr v

/-- Python `type(v).__name__`. -/
def pyTypeName : Val → String
  | .vNone => "NoneType"
  | .vBool _ => "bool"
  | .vInt _ => "int"
  | .vFloat _ => "float"
  | .vStr _ => "str"
  | .vList _ => "list"
  | .vDict _ => "dict"

/-- Python `round(x, 2)`: nearest multiple of 1/100, ties to even hundredth. -/
def pyRound2 (q : ℚ) : ℚ :=
  let x := q * 100
  let f : ℤ := ⌊x⌋
  let frac := x - f
  let r : ℤ :=
    if frac > 1/2 then f + 1
    else if frac < 1/2 then f
    else if f % 2 = 0 then f else f + 1
  (r : ℚ) / 100

-- -------------------------
-- Config / Cache / Contract  (narrative.py lines 35-51)
-- -------------------------

def MAX_CACHE_TTL : Int := 120

def PROMPT_VERSION : String := "v3.10-structured-logging"

def CONTRACT_VERSION : String := "2.7"

/-- Embeds `_ALLOWED_SOFT_ERROR_KEYS` (narrative.py lines 43-51). -/
def ALLOWED_SOFT_ERROR_KEYS : List String :=
  ["ai", "trends", "odds", "games_today", "player_props", "markdown", "template"]

-- -------------------------
-- Utility helpers (narrative.py lines 138-318)
-- -------------------------

/-- Embeds `_cap_ttl` (line 146): `max(0, min(ttl, _MAX_CACHE_TTL))`. -/
def cap_ttl (ttl : Int) : Int := max 0 (min ttl MAX_CACHE_TTL)

/-- Embeds `_sanitize_soft_errors` (lines 150-169): non-dict input yields `{}`;
dict entries survive only under allow-listed keys, with values coerced to
strings (`str(value) if value is not None else ""`). -/
def sanitize_soft_errors (soft_errors : Val) : Dct :=
  match soft_errors with
  | .vDict d =>
      d.foldl
        (fun acc kv =>
          if kv.1 ∈ ALLOWED_SOFT_ERROR_KEYS then
            dset acc kv.1 (.vStr (match kv.2 with | .vNone => "" | v => pyStr v))
          else acc)
        []
  | _ => []

/-- Embeds `_parse_trends_override` (lines 252-261). -/
def parse_trends_override (trends : Option Int) : Option Bool :=
  match trends with
  | none => none
  | some t => some (t ≠ 0)

/-- Embeds `_fmt_key` (lines 264-271). -/
def fmt_key (format_value : Option String) : String :=
  match format_value with
  | none => "none"
  | some s =>
      let v := pyLower (pyStrip s)
      if v = "" then "none" else v

/-- Embeds `_build_cache_key` (lines 274-308). -/
def build_cache_key (mode : String) (ttl : Int) (scope : String)
    (format_value : Option String) (trends_override : Option Bool)
    (effective_trends : Bool) (ai_allowed : Bool) (compact : Bool) : String :=
  let fmt := fmt_key format_value
  let boolDigit := fun (b : Bool) => if b then "1" else "0"
  let tr :=
    match trends_override with
    | none => "tr:env=" ++ boolDigit effective_trends
    | some ov => "tr:ovr=" ++ boolDigit ov ++ "|eff=" ++ boolDigit effective_trends
  let ak := "ai=" ++ boolDigit ai_allowed
  let cmp := "cmp=" ++ boolDigit compact
  "m=" ++ mode ++ "|ttl=" ++ toString ttl ++ "|sc=" ++ scope ++ "|fmt=" ++ fmt
    ++ "|" ++ tr ++ "|" ++ ak ++ "|" ++ cmp

/-- Embeds `_ai_allowed` (lines 311-318), in terms of the two environment variables
it reads. -/
def ai_allowed_of (disableAi openaiKey : String) : Bool :=
  if disableAi = "1" then false else pyStrip openaiKey ≠ ""

/-- Embeds `_fallback_summary` (lines 321-341). -/
def fallback_summary (reason : String) : Dct :=
  [("macro_summary", .vList
      [ .vStr "NBA narrative is available in fallback mode.",
        .vStr "Detailed AI narrative is currently unavailable for this request." ]),
   ("micro_summary", .vDict
      [ ("key_edges", .vList []),
        ("risk_score", .vFloat 0),
        ("risk_rationale", .vStr reason) ]),
   ("analyst_takeaway", .vStr
      "Review the slate and odds context; retry AI mode once configuration stabilizes."),
   ("confidence_summary", .vList [.vStr "Low"]),
   ("metadata", .vDict [("model", .vStr "ROUTE_FALLBACK")])]

/-- Python `x is None`. -/
def Val.isNone : Val → Bool
  | .vNone => true
  | _ => false

/-- String-valued dict helpers for the route's `soft_errors: Dict[str, str]`. -/
def sset : List (String × String) → String → String → List (String × String)
  | [], k, v => [(k, v)]
  | (k', v') :: rest, k, v =>
      if k' = k then (k', v) :: rest else (k', v') :: sset rest k v

def sget : List (String × String) → String → Option String
  | [], _ => none
  | (k', v) :: rest, k => if k' = k then some v else sget rest k

/-- Python `v.get(k)` on a dynamic value: AttributeError when `v` is not a dict
(mirrors CPython; message text abbreviated). -/
def vget (v : Val) (k : String) : Except PyExn Val :=
  match v with
  | .vDict d => .ok (dgetD d k .vNone)
  | _ => .error ⟨"AttributeError",
      "'" ++ pyTypeName v ++ "' object has no attribute 'get'"⟩

/-- Python `v.get(k, dflt)` on a dynamic value. -/
def vgetD (v : Val) (k : String) (dflt : Val) : Except PyExn Val :=
  match v with
  | .vDict d => .ok (dgetD d k dflt)
  | _ => .error ⟨"AttributeError",
      "'" ++ pyTypeName v ++ "' object has no attribute 'get'"⟩

/-- Python `len(v)` on a dynamic value: TypeError on unsized values. -/
def pyLenE (v : Val) : Except PyExn Nat :=
  match v with
  | .vList xs => .ok xs.length
  | .vDict d => .ok d.length
  | .vStr s => .ok s.length
  | _ => .error ⟨"TypeError",
      "object of type '" ++ pyTypeName v ++ "' has no len()"⟩

/-- Python `v[:n]` then iteration: lists slice to lists, strings to 1-char strings,
anything else raises TypeError (message abbreviated). -/
def pySliceTake (v : Val) (n : Nat) : Except PyExn (List Val) :=
  match v with
  | .vList xs => .ok (xs.take n)
  | .vStr s => .ok ((s.data.take n).map (fun c => .vStr ⟨[c]⟩))
  | _ => .error ⟨"TypeError",
      "'" ++ pyTypeName v ++ "' object is not subscriptable"⟩

/-- Embeds `_extract_teams_from_game` (lines 344-357).  The chained `or`s are lazy:
a later operand (and its potential AttributeError) is only evaluated when
every earlier one was falsy. -/
def extract_team_side (game : Val) (primary : String) (dflt : String) :
    Except PyExn Val := do
  let p1 ← vget game primary
  let a ← vget (p1.orElse (.vDict [])) "name"
  if a.truthy then return a
  let t ← vget game "teams"
  let t2 ← vget (t.orElse (.vDict [])) (if primary = "away_team" then "away" else "home")
  let b ← vget (t2.orElse (.vDict [])) "name"
  if b.truthy then return b
  let c ← vget game primary
  if c.truthy then return c
  return (.vStr dflt)

def extract_teams_from_game (game : Val) : Except PyExn (String × String) := do
  let away ← extract_team_side game "away_team" "Away"
  let home ← extract_team_side game "home_team" "Home"
  return (pyStr away, pyStr home)

/-- Embeds `(g.get("status") or {}).get("short") or (... "long") or "Scheduled"`
(line 377), lazily. -/
def game_status_text (g : Val) : Except PyExn Val := do
  let s0 ← vget g "status"
  let s1 ← vget (s0.orElse (.vDict [])) "short"
  if s1.truthy then return s1
  let s0' ← vget g "status"
  let s2 ← vget (s0'.orElse (.vDict [])) "long"
  if s2.truthy then return s2
  return (.vStr "Scheduled")

/-- Embeds `_build_grounded_template_summary` (lines 360-473).  Runs in `Except`:
the route calls it inside `try`, so a raised fault is observable (it becomes
`soft_errors["template"]`). -/
def build_grounded_template_summary (data : Dct) : Except PyExn Dct := do
  let games := Val.orElse (dgetD data "games_today" (.vList [])) (.vList [])
  let oddsGames0 ← vgetD (Val.orElse (dgetD data "odds" .vNone) (.vDict [])) "games" (.vList [])
  let odds_games := Val.orElse oddsGames0 (.vList [])
  let player_trends := Val.orElse (dgetD data "player_trends" (.vList [])) (.vList [])
  let team_trends := Val.orElse (dgetD data "team_trends" (.vList [])) (.vList [])
  let player_props := Val.orElse (dgetD data "player_props" (.vList [])) (.vList [])

  let macroPre ←
    if games.truthy then do
      let n ← pyLenE games
      let line1 := "Slate overview: " ++ toString n ++
        " NBA game(s) were returned for the current window."
      let gs ← pySliceTake games 3
      let sample ← gs.mapM (fun g => do
        let th ← extract_teams_from_game g
        let status ← game_status_text g
        pure (th.1 ++ " @ " ++ th.2 ++ " (" ++ pyStr status ++ ")"))
      pure [line1, "Sample matchups: " ++ joinSep "; " sample ++ "."]
    else
      pure ["Slate overview: no games were returned for the current window."]

  let lo ← pyLenE odds_games
  let lpt ← pyLenE player_trends
  let ltt ← pyLenE team_trends
  let lpp ← pyLenE player_props
  let macro_lines := macroPre ++
    ["Data coverage: odds_games=" ++ toString lo ++ ", player_trends=" ++ toString lpt ++
     ", team_trends=" ++ toString ltt ++ ", player_props=" ++ toString lpp ++ "."]

  let ogs ← pySliceTake odds_games 3
  let edges1 ← ogs.mapM (fun g => do
    let away := Val.orElse (← vget g "away_team") (.vStr "Away")
    let home := Val.orElse (← vget g "home_team") (.vStr "Home")
    let ml := Val.orElse (← vget g "moneyline") (.vDict [])
    let away_a ← vget (Val.orElse (← vget ml "away") (.vDict [])) "american"
    let home_a ← vget (Val.orElse (← vget ml "home") (.vDict [])) "american"
    let text :=
      if ¬away_a.isNone ∧ ¬home_a.isNone then
        pyStr away ++ " @ " ++ pyStr home ++ ": moneyline context shows away " ++
          pyStr away_a ++ " and home " ++ pyStr home_a ++ "."
      else
        pyStr away ++ " @ " ++ pyStr home ++
          ": moneyline context available with partial pricing detail."
    pure (Val.vDict [("value_label", .vStr "Market Context"),
      ("edge_score", .vFloat 5), ("text", .vStr text)]))

  let pts ← pySliceTake player_trends 2
  let edges2 ← pts.mapM (fun t => do
    let player := Val.orElse (← vget t "player_name") (.vStr "Player")
    let stat := Val.orElse (← vget t "stat_type") (.vStr "stat")
    let avg ← vget t "average"
    let direction := Val.orElse (← vget t "trend_direction") (.vStr "neutral")
    let avg_txt := if avg.isNone then "n/a" else pyStr avg
    pure (Val.vDict [("value_label", .vStr "Trend Signal"),
      ("edge_score", .vFloat (11/2)),
      ("text", .vStr (pyStr player ++ " " ++ pyStr stat ++ " trend is " ++
        pyStr direction ++ " with average=" ++ avg_txt ++ "."))]))

  let pps ← pySliceTake player_props 2
  let edges3 ← pps.mapM (fun p => do
    let player := Val.orElse (← vget p "player_name") (.vStr "Player")
    let market := Val.orElse (← vget p "market") (.vStr "player market")
    let line ← vget p "line"
    let line_txt := if line.isNone then "n/a" else pyStr line
    pure (Val.vDict [("value_label", .vStr "Props Availability"),
      ("edge_score", .vFloat 5),
      ("text", .vStr (pyStr player ++ " has " ++ pyStr market ++
        " posted with line=" ++ line_txt ++ "."))]))

  let missing : List String :=
    (if ¬games.truthy then ["games_today"] else []) ++
    (if ¬odds_games.truthy then ["odds"] else []) ++
    (if ¬player_trends.truthy then ["player_trends"] else []) ++
    (if ¬player_props.truthy then ["player_props"] else [])

  let risk_score : ℚ := min (95/100) (pyRound2 (35/100 + (12/100) * missing.length))
  let risk_rationale :=
    if ¬missing.isEmpty then
      "Higher uncertainty due to limited inputs: " ++ joinSep ", " missing ++ "."
    else
      "Core inputs were available; uncertainty remains because this is a template-mode summary."
  let confidence :=
    if risk_score ≤ 45/100 then "High"
    else if risk_score ≤ 65/100 then "Medium"
    else "Low"
  let analyst_takeaway :=
    "Use this summary as a grounded slate snapshot. " ++
    "Prioritize matchups with both odds and trend signals, and treat games without those inputs as lower-conviction."

  return [("macro_summary", .vList (macro_lines.map Val.vStr)),
     ("micro_summary", .vDict
        [("key_edges", .vList ((edges1 ++ edges2 ++ edges3).take 6)),
         ("risk_score", .vFloat risk_score),
         ("risk_rationale", .vStr risk_rationale)]),
     ("analyst_takeaway", .vStr analyst_takeaway),
     ("confidence_summary", .vList [.vStr confidence]),
     ("metadata", .vDict
        [("model", .vStr "TEMPLATE_GROUNDED_V1"),
         ("ai_used", .vBool false),
         ("ai_error", .vStr "mode=template (AI not requested).")])]

/-- Embeds `_validate_or_fallback` (lines 476-507): hardening pass; also returns the
(possibly updated) `soft_errors` dict, which the Python code mutates. -/
def validate_or_fallback (candidate : Val) (soft_errors : List (String × String))
    (ai_used : Bool) (reasonPfx : String) :
    Dct × Bool × List (String × String) :=
  match candidate with
  | .vDict d0 =>
      let d1 := dsetdefault d0 "macro_summary" (.vStr "")
      let d2 := dsetdefault d1 "micro_summary" (.vDict [])
      let d3 := match dget d2 "micro_summary" with
                | some (.vDict _) => d2
                | _ => dset d2 "micro_summary" (.vDict [])
      let d4 := dsetdefault d3 "analyst_takeaway" (.vStr "")
      let d5 := dsetdefault d4 "confidence_summary" (.vList [.vStr "Medium"])
      let d6 := dsetdefault d5 "metadata" (.vDict [])
      let d7 := match dget d6 "metadata" with
                | some (.vDict _) => d6
                | _ => dset d6 "metadata" (.vDict [])
      let micro := match dget d7 "micro_summary" with
                   | some (.vDict m) => m
                   | _ => []
      let micro1 := dsetdefault micro "key_edges" (.vList [])
      let micro2 := dsetdefault micro1 "risk_score" (.vFloat (1/2))
      let micro3 := dsetdefault micro2 "risk_rationale"
        (.vStr "Narrative generated with guardrails.")
      (dset d7 "micro_summary" (.vDict micro3), ai_used, soft_errors)
  | _ =>
      let msg := reasonPfx ++ ": AI output invalid type: " ++ pyTypeName candidate
      (fallback_summary msg, false, sset soft_errors "ai" msg)

/-- Embeds `_build_source_status` (lines 172-216). -/
def build_source_status (games_count : Nat) (games_err : Option String)
    (odds_count : Nat) (odds_err : Option String)
    (player_trends_count team_trends_count : Nat) (trends_err : Option String)
    (trends_enabled : Bool) (player_props_count : Nat)
    (player_props_err : Option String) : Dct :=
  let trends_count := player_trends_count + team_trends_count
  let trends_status :=
    match trends_err with
    | some _ => if ¬trends_enabled then "disabled" else "error"
    | none => if trends_count = 0 then "no_data" else "ok"
  let stat := fun (err : Option String) (count : Nat) =>
    match err with
    | some _ => "error"
    | none => if count > 0 then "ok" else "no_data"
  [("games_today", .vDict
      [("status", .vStr (stat games_err games_count)),
       ("count", .vInt games_count), ("error", .vStr (games_err.getD ""))]),
   ("odds", .vDict
      [("status", .vStr (stat odds_err odds_count)),
       ("count", .vInt odds_count), ("error", .vStr (odds_err.getD ""))]),
   ("trends", .vDict
      [("status", .vStr trends_status),
       ("count", .vInt trends_count), ("error", .vStr (trends_err.getD ""))]),
   ("player_props", .vDict
      [("status", .vStr (stat player_props_err player_props_count)),
       ("count", .vInt player_props_count),
       ("error", .vStr (player_props_err.getD ""))])]

mutual

/-- Python `json.dumps` on the values the renderer may dump (string escaping
elided: the route's strings are plain text; the list/dict helpers spell out
the `", "`/`": "` separators over the elements). -/
def jsonDumps : Val → String
  | .vStr s => "\"" ++ s ++ "\""
  | .vNone => "null"
  | .vBool b => if b then "true" else "false"
  | .vInt n => toString n
  | .vFloat q => ratToDecimalStr q
  | .vList xs => "[" ++ jsonDumpsList xs ++ "]"
  | .vDict d => "\x7b" ++ jsonDumpsDict d ++ "\x7d"

def jsonDumpsList : List Val → String
  | [] => ""
  | [x] => jsonDumps x
  | x :: rest => jsonDumps x ++ ", " ++ jsonDumpsList rest

def jsonDumpsDict : List (String × Val) → String
  | [] => ""
  | [(k, v)] => "\"" ++ k ++ "\": " ++ jsonDumps v
  | (k, v) :: rest => "\"" ++ k ++ "\": " ++ jsonDumps v ++ ", " ++ jsonDumpsDict rest

end

/-- One numbered key-edge rendering (lines 553-566). -/
def render_edge_lines (idx : Nat) (e : Val) : List String :=
  match e with
  | .vDict d =>
      let lbl := dgetD d "value_label" (.vStr "")
      let score := dgetD d "edge_score" (.vStr "")
      let t := dgetD d "text" (.vStr "")
      if lbl.truthy ∨ score.truthy ∨ t.truthy then
        [toString idx ++ ". **" ++ pyStr lbl ++ "** (score: " ++ pyStr score ++ ")",
         "   " ++ pyStr t]
      else
        [toString idx ++ ". " ++ jsonDumps (.vDict d)]
  | .vStr s => [toString idx ++ ". " ++ s]
  | v => [toString idx ++ ". " ++ pyStr v]

/-- Embeds `_render_markdown` (lines 513-593).  Total: the renderer performs only
`dict.get`/`str` operations, so no code path of the source raises. -/
def render_markdown (summary : Dct) (compact : Bool) : String :=
  let meta := match dget summary "metadata" with
              | some (.vDict m) => m
              | _ => []
  let gen_at := dgetD meta "generated_at" (.vStr "")
  let model := dgetD meta "model" (.vStr "")
  let macroV := dgetD summary "macro_summary" .vNone
  let micro := match dgetD summary "micro_summary" (.vDict []) with
               | .vDict m => m
               | _ => []
  let edges : List Val :=
    match Val.orElse (dgetD micro "key_edges" (.vList [])) (.vList []) with
    | .vList xs => xs
    | _ => []
  let risk := dgetD micro "risk_score" .vNone
  let risk_rationale := dgetD micro "risk_rationale" .vNone
  let analyst := dgetD summary "analyst_takeaway" .vNone
  let plain := dgetD summary "summary" .vNone
  let confidence : List Val :=
    match dgetD summary "confidence_summary" (.vList []) with
    | .vList xs => xs
    | c => if c.truthy then [c] else []
  let confidence_text := joinSep ", "
      ((confidence.map (fun c => pyStrip (pyStr c))).filter (fun s => s ≠ ""))
  let lines0 := ["**NBA Narrative**  \n_Generated: " ++ pyStr gen_at ++
                 " • Model: " ++ pyStr model ++ "_"]
  let lines1 := lines0 ++
    (if macroV.truthy then
      let macro_text :=
        match macroV with
        | .vList ms =>
            let items := (ms.map (fun m => pyStrip (pyStr m))).filter (fun s => s ≠ "")
            if items.isEmpty then ""
            else joinSep "\n" (items.map (fun m => "- " ++ m))
        | v => pyStrip (pyStr v)
      ["\n### Macro Summary", macro_text]
    else [])
  let lines2 := lines1 ++
    (if ¬edges.isEmpty ∧ ¬compact then
      ["\n### Key Edges"] ++
        (edges.enum.map (fun ie => render_edge_lines (ie.1 + 1) ie.2)).flatten
    else [])
  let lines3 := lines2 ++
    (if ¬risk.isNone ∧ ¬compact then
      ["\n### Risk & Confidence"] ++
      (if risk_rationale.truthy then
        ["- **Risk Score:** " ++ pyStr risk,
         "- **Risk Rationale:** " ++ pyStr risk_rationale]
      else ["- **Risk Score:** " ++ pyStr risk]) ++
      (if confidence_text ≠ "" then ["- **Confidence:** " ++ confidence_text] else [])
    else [])
  let lines4 := lines3 ++
    (if analyst.truthy then
      let analyst_text := pyStrip (pyStr analyst)
      ["\n### Analyst Takeaway"] ++
      (let parts := analyst_text.splitOn ". "
       if parts.length ≠ 1 then
         ((parts.map pyStrip).filter (fun s => s ≠ "")).map
           (fun s => "- " ++ s ++ (if s.endsWith "." then "" else "."))
       else [analyst_text])
    else [])
  let lines5 := lines4 ++
    (if ¬macroV.truthy ∧ plain.truthy then
      ["\n### Summary", pyStrip (pyStr plain)]
    else [])
  if ¬compact then pyStrip (joinSep "\n" lines5)
  else ⟨(joinSep " " lines5).data.take 1000⟩

-- -------------------------
-- The /today endpoint (narrative.py lines 620-984)
-- -------------------------

/-- Query parameters of `GET /nba/narrative/today` (lines 621-629). -/
structure Req where
  mode : String
  cache_ttl : Int
  format : Option String
  trends : Option Int

/-- Process environment and import state read by the route. -/
structure Env where
  /-- Whether `ENABLE_TRENDS_IN_NARRATIVE == "1"` (line 40). -/
  enableTrendsEnv : Bool
  /-- Value of `DISABLE_AI` (line 316). -/
  disableAi : String
  /-- Value of `OPENAI_API_KEY` (line 318). -/
  openaiKey : String
  /-- Whether the import of `get_trends_summary` succeeded (lines 25-28). -/
  trendsAgentAvailable : Bool

/-- A `TrendsResponse` as the route consumes it: its `team_trends` /
`player_trends` entries, already `model_dump()`-ed to dicts (lines 824-833). -/
structure TrendsDump where
  team_trends : List Val
  player_trends : List Val

/-- An `OddsResponse` as the route consumes it via `model_dump()` (line 835):
a dict with the model's fields `date` and `games` in declaration order. -/
structure OddsDump where
  date : String
  games : List Val

def OddsDump.toVal (o : OddsDump) : Val :=
  .vDict [("date", .vStr o.date), ("games", .vList o.games)]

/-- Per-request external behaviour: the collaborator calls (each returns a
value or raises), `uuid`, the two clock renderings and the `hashlib`/`json`
digest (`_sha1_digest`, lines 219-249, abstracted as a stdlib collaborator). -/
structure Oracle where
  games : Except PyExn (List Val)
  odds : Except PyExn OddsDump
  player_props : Except PyExn (List Val)
  trendsFetch : Except PyExn TrendsDump
  generate : Dct → String → Except PyExn Val
  requestId : String
  nowIso : String
  nowUtcStr : String
  sha1Digest : Dct → String

/-- An `_CACHE` entry: `{"expires_at": ..., "payload": ...}` (line 981). -/
structure CacheEntry where
  expires_at : ℚ
  payload : Dct

abbrev Cache := List (String × CacheEntry)

def cacheGet : Cache → String → Option CacheEntry
  | [], _ => none
  | (k', e) :: rest, k => if k' = k then some e else cacheGet rest k

def cacheSet : Cache → String → CacheEntry → Cache
  | [], k, e => [(k, e)]
  | (k', e') :: rest, k, e =>
      if k' = k then (k', e) :: rest else (k', e') :: cacheSet rest k e

/-- Embeds `_safe_call` / `_safe_await` (lines 599-614): a raised fault becomes
`(None, f"{label}: {type(e).__name__}: {e}")`. -/
def safeResult (label : String) (r : Except PyExn α) : Option α × Option String :=
  match r with
  | .ok v => (some v, none)
  | .error e => (none, some (label ++ ": " ++ e.text))

/-- The meta fields the cache-hit path writes (lines 689-694). -/
def hit_meta_fields (cache_key : String) (ttl : Int) (expires_in : ℚ)
    (request_id : String) : List (String × Val) :=
  [("latency_ms", .vFloat 0),
   ("cache_used", .vBool true),
   ("cache_key", .vStr cache_key),
   ("cache_ttl_s", .vInt ttl),
   ("cache_expires_in_s", .vFloat (pyRound2 expires_in)),
   ("request_id", .vStr request_id)]

/-- The cache-hit serve block (lines 685-697), with CPython's aliasing made
explicit.  `payload = dict(cached["payload"])` is a *shallow* copy: the
`"raw"` value is shared with the stored entry, so the writes into
`payload["raw"]["meta"]` are visible through `_CACHE` as well.  Returns
(returned payload, stored payload after the serve).  The `try/except: pass`
swallows the AttributeError/TypeError of the non-dict cases. -/
def serve_cached_payload (stored : Dct) (cache_key : String) (ttl : Int)
    (expires_in : ℚ) (request_id : String) : Dct × Dct :=
  let fields := hit_meta_fields cache_key ttl expires_in request_id
  match dget stored "raw" with
  | some (.vDict raw) =>
      (match dget raw "meta" with
       | some (.vDict meta) =>
           -- shared raw, shared meta: both the copy and the stored entry see
           -- the updated meta
           let raw' := dset raw "meta" (.vDict (dupdate meta fields))
           (dset stored "raw" (.vDict raw'), dset stored "raw" (.vDict raw'))
       | some _ =>
           -- `meta["latency_ms"] = 0.0` raises on a non-dict; caught by the
           -- bare except, nothing mutated
           (stored, stored)
       | none =>
           -- `setdefault("meta", {})` inserts a fresh dict into the *shared*
           -- raw, then the writes land in it
           let raw' := raw ++ [("meta", .vDict (dupdate [] fields))]
           (dset stored "raw" (.vDict raw'), dset stored "raw" (.vDict raw')))
  | some _ =>
      -- `payload.setdefault("raw", {}).setdefault("meta", {})` raises
      -- AttributeError on a non-dict "raw"; caught, nothing mutated
      (stored, stored)
  | none =>
      -- `setdefault` inserts a fresh "raw" into the shallow copy only; the
      -- stored entry is untouched
      (stored ++ [("raw", .vDict [("meta", .vDict (dupdate [] fields))])], stored)

/-- Fan-out results: the unpacked `(data, error)` pairs of the four wrapped
source calls (lines 738-776). -/
structure FanOut where
  games_today : Option (List Val)
  games_err : Option String
  odds_data : Option OddsDump
  odds_err : Option String
  player_props_data : Option (List Val)
  player_props_err : Option String
  trends_data : Option TrendsDump
  trends_err : Option String

/-- Embeds the parallel fetch block (lines 738-776): games, odds and player
props are always wrapped; trends is fetched only when effective, and when the
agent import failed or trends are disabled a synthetic error string is
recorded instead (lines 750-756).  `asyncio.gather` preserves each wrapped
result. -/
def run_fanout (env : Env) (o : Oracle) (effective_trends : Bool) : FanOut :=
  let gamesR := safeResult "games_today" o.games
  let oddsR := safeResult "odds" o.odds
  let propsR := safeResult "player_props" o.player_props
  let trendsR : Option TrendsDump × Option String :=
    if effective_trends then
      if env.trendsAgentAvailable then safeResult "trends" o.trendsFetch
      else (none, some "Trends agent unavailable (import failed).")
    else (none, some "Disabled (trends=0 override or ENABLE_TRENDS_IN_NARRATIVE=0).")
  { games_today := gamesR.1, games_err := gamesR.2,
    odds_data := oddsR.1, odds_err := oddsR.2,
    player_props_data := propsR.1, player_props_err := propsR.2,
    trends_data := trendsR.1, trends_err := trendsR.2 }

/-- Embeds the soft-error seeding (lines 778-813): one entry per failed
source, in source insertion order. -/
def seed_soft_errors (f : FanOut) : List (String × String) :=
  let se0 : List (String × String) := []
  let se1 := match f.games_err with | some e => sset se0 "games_today" e | none => se0
  let se2 := match f.odds_err with | some e => sset se1 "odds" e | none => se1
  let se3 := match f.trends_err with | some e => sset se2 "trends" e | none => se2
  match f.player_props_err with
  | some e => sset se3 "player_props" e
  | none => se3

/-- Embeds `narrative_data` (lines 823-836): trends unpacking (a returned
`TrendsResponse` object is truthy) and the raw input snapshot. -/
def narrative_data_of (o : Oracle) (f : FanOut) : Dct :=
  let team_trends := match f.trends_data with | some td => td.team_trends | none => []
  let player_trends := match f.trends_data with | some td => td.player_trends | none => []
  [("date_generated", .vStr o.nowUtcStr),
   ("games_today", .vList (f.games_today.getD [])),
   ("player_trends", .vList player_trends),
   ("team_trends", .vList team_trends),
   ("player_props", .vList (f.player_props_data.getD [])),
   ("odds", match f.odds_data with | some od => od.toVal | none => .vNone)]

/-- Embeds `requested_mode = (mode or "template").strip().lower()`
(line 841). -/
def requested_mode_of (mode : String) : String :=
  pyLower (pyStrip (if mode = "" then "template" else mode))

/-- Embeds the AI gating + soft fallback (lines 843-878).  Returns
(summary candidate, ai_used, soft_errors, whether
`generate_narrative_summary` was invoked). -/
def gate_summary (o : Oracle) (narrative_data : Dct) (requested_mode : String)
    (ai_allowed : Bool) (se : List (String × String)) :
    Val × Bool × List (String × String) × Bool :=
  if requested_mode = "ai" ∧ ¬ai_allowed then
    let reason := "AI mode requested but not allowed (OPENAI_API_KEY missing/disabled)."
    (.vDict (fallback_summary reason), false, sset se "ai" reason, false)
  else if requested_mode = "ai" then
    match o.generate narrative_data requested_mode with
    | .ok v => (v, true, se, true)
    | .error e =>
        -- soft fallback on throw; `soft_errors.get("ai")` is the reason just
        -- recorded (lines 868-877)
        let reason := "AI generation threw: " ++ e.text
        (.vDict (fallback_summary reason), false, sset se "ai" reason, true)
  else
    match build_grounded_template_summary narrative_data with
    | .ok d => (.vDict d, false, se, false)
    | .error e =>
        let msg := "Template generation threw: " ++ e.text
        (.vDict (fallback_summary msg), false, sset se "template" msg, false)

/-- Embeds the metadata hardening (lines 889-904): the hardened summary's
metadata updated with the stamped fields. -/
def stamped_metadata (o : Oracle) (narrative_data : Dct) (requested_mode : String)
    (ai_allowed : Bool) (summary0 : Dct) (ai_used : Bool) : Dct :=
  let metadata0 := match dget summary0 "metadata" with
                   | some (.vDict m) => m
                   | _ => []
  dupdate metadata0
    [("generated_at", .vStr o.nowIso),
     ("model", dgetD metadata0 "model"
        (.vStr (if ¬(requested_mode = "ai") then "template" else "gpt-4o"))),
     ("prompt_version", .vStr PROMPT_VERSION),
     ("inputs_digest", .vStr (o.sha1Digest narrative_data)),
     ("games_today_count", .vInt (pyLen (Val.orElse
        (dgetD narrative_data "games_today" (.vList [])) (.vList [])))),
     ("ai_used", .vBool ai_used),
     ("ai_allowed", .vBool ai_allowed)]

/-- Embeds the observability `meta` block (lines 909-954): counts, per-source
status, cache provenance and the sanitized soft errors.  Perf-counter
latencies are modelled as zero. -/
def response_meta (o : Oracle) (f : FanOut) (narrative_data : Dct) (ttl : Int)
    (override : Option Bool) (effective_trends : Bool) (cache_key : String)
    (requested_mode : String) (soft_errors_sanitized : Dct) : Dct :=
  let games_count := pyLen (Val.orElse (dgetD narrative_data "games_today" (.vList []))
      (.vList []))
  let player_trends_count := pyLen (dgetD narrative_data "player_trends" (.vList []))
  let team_trends_count := pyLen (dgetD narrative_data "team_trends" (.vList []))
  let player_props_count := pyLen (dgetD narrative_data "player_props" (.vList []))
  -- `len((narrative_data.get("odds") or {}).get("games", []) or [])`; the
  -- "odds" slot is a dict or None by construction, so `.get` cannot raise
  let odds_games_count := pyLen (Val.orElse
      (match Val.orElse (dgetD narrative_data "odds" .vNone) (.vDict []) with
       | .vDict d => dgetD d "games" (.vList [])
       | _ => .vNone)
      (.vList []))
  let source_counts : Dct :=
    [("games_today", .vInt games_count),
     ("player_trends", .vInt player_trends_count),
     ("team_trends", .vInt team_trends_count),
     ("player_props", .vInt player_props_count),
     ("odds_games", .vInt odds_games_count)]
  let source_status := build_source_status games_count f.games_err odds_games_count
      f.odds_err player_trends_count team_trends_count f.trends_err effective_trends
      player_props_count f.player_props_err
  [("contract_version", .vStr CONTRACT_VERSION),
   ("request_id", .vStr o.requestId),
   ("latency_ms", .vFloat 0),
   ("latency_breakdown", .vDict [("fetch_ms", .vFloat 0), ("total_ms", .vFloat 0)]),
   ("source_counts", .vDict source_counts),
   ("source_status", .vDict source_status),
   ("cache_used", .vBool false),
   ("cache_ttl_s", .vInt ttl),
   ("cache_key", .vStr cache_key),
   ("cache_expires_in_s", .vInt ttl),
   ("soft_errors", .vDict soft_errors_sanitized),
   ("mode", .vStr requested_mode),
   ("trends_enabled_in_narrative", .vBool effective_trends),
   ("trends_override", match override with | none => .vNone | some b => .vBool b)]

/-- The validate/harden step applied to the gate outcome (lines 880-887). -/
def vres_of (o : Oracle) (narrative_data : Dct) (requested_mode : String)
    (ai_allowed : Bool) (se : List (String × String)) :
    Dct × Bool × List (String × String) :=
  let gate := gate_summary o narrative_data requested_mode ai_allowed se
  validate_or_fallback gate.1 gate.2.2.1 gate.2.1
      (if requested_mode = "ai" then "AI" else "Template")

/-- The summary after hardening and metadata stamping (line 904's
`summary["metadata"] = metadata`). -/
def summary1_of (o : Oracle) (narrative_data : Dct) (requested_mode : String)
    (ai_allowed : Bool) (se : List (String × String)) : Dct :=
  let vres := vres_of o narrative_data requested_mode ai_allowed se
  dset vres.1 "metadata"
    (.vDict (stamped_metadata o narrative_data requested_mode ai_allowed
      vres.1 vres.2.1))

/-- The cache-miss body of `get_daily_narrative` (lines 738-984, after the
lock), assembled from the pieces above in source order: fan-out, soft-error
seeding, gating, hardening (`_validate_or_fallback`), metadata stamping,
sanitization, envelope assembly and the optional markdown embedding
(lines 959-969; the renderer is total, so the `except` fallback branch is
unreachable).  Returns the response and whether `generate_narrative_summary`
was invoked. -/
def fresh_response (req : Req) (env : Env) (o : Oracle) (ttl : Int)
    (override : Option Bool) (effective_trends : Bool) (ai_allowed : Bool)
    (cache_key : String) : Dct × Bool :=
  let f := run_fanout env o effective_trends
  let se4 := seed_soft_errors f
  let narrative_data := narrative_data_of o f
  let requested_mode := requested_mode_of req.mode
  let summary1 := summary1_of o narrative_data requested_mode ai_allowed se4
  let soft_errors_sanitized := sanitize_soft_errors
      (.vDict (((vres_of o narrative_data requested_mode ai_allowed se4).2.2).map
        (fun kv => (kv.1, Val.vStr kv.2))))
  let meta := response_meta o f narrative_data ttl override effective_trends
      cache_key requested_mode soft_errors_sanitized
  let resp0 : Dct :=
    [("ok", .vBool true),
     ("summary", .vDict summary1),
     ("raw", .vDict (narrative_data ++ [("meta", .vDict meta)])),
     ("mode", .vStr requested_mode)]
  let fmt_str := match req.format with | none => "" | some s => pyLower s
  let resp1 :=
    if fmt_str = "markdown"
    then dset resp0 "markdown" (.vStr (render_markdown summary1 false))
    else resp0
  (resp1, (gate_summary o narrative_data requested_mode ai_allowed se4).2.2.2)

/-- Embeds `GET /nba/narrative/today` (`get_daily_narrative`, lines 620-984) for one
request executing without interleaving: request inputs, environment, external
oracle, the instant `time.time()` reports during the request, and the state
of `_CACHE`.  Returns (response, new `_CACHE`, whether
`generate_narrative_summary` was invoked).

Concurrency note: the per-key `asyncio.Lock` acquisition and the double-check
re-read (lines 707-736) act only when requests interleave; for a lone request
the re-check re-reads the unchanged `_CACHE` and misses again, so it is not
repeated here.  Interleaving itself is modelled separately (`Stampede`). -/
def get_daily_narrative (req : Req) (env : Env) (o : Oracle) (now : ℚ)
    (cache : Cache) : Dct × Cache × Bool :=
  let ttl := cap_ttl req.cache_ttl
  let override := parse_trends_override req.trends
  let effective_trends := override.getD env.enableTrendsEnv
  let ai_allowed := ai_allowed_of env.disableAi env.openaiKey
  let cache_key := build_cache_key req.mode ttl "today" req.format override
      effective_trends ai_allowed false
  let miss : Dct × Cache × Bool :=
    let fr := fresh_response req env o ttl override effective_trends ai_allowed cache_key
    let cache' := if ttl > 0
      then cacheSet cache cache_key ⟨now + ttl, fr.1⟩
      else cache
    (fr.1, cache', fr.2)
  match cacheGet cache cache_key with
  | some entry =>
      if entry.expires_at > now then
        let expires_in := entry.expires_at - now
        let sp := serve_cached_payload entry.payload cache_key ttl expires_in
            o.requestId
        (sp.1, cacheSet cache cache_key ⟨entry.expires_at, sp.2⟩, false)
      else miss  -- expired entries are not evicted on read; `set` overwrites
  | none => miss

-- -------------------------
-- Statement accessors (observers over the response envelope)
-- -------------------------

def rawOf (resp : Dct) : Dct :=
  match dget resp "raw" with | some (.vDict r) => r | _ => []

def metaOf (resp : Dct) : Dct :=
  match dget (rawOf resp) "meta" with | some (.vDict m) => m | _ => []

def softErrorsOf (resp : Dct) : Dct :=
  match dget (metaOf resp) "soft_errors" with | some (.vDict s) => s | _ => []

def summaryOf (resp : Dct) : Dct :=
  match dget resp "summary" with | some (.vDict s) => s | _ => []

def summaryMetadataOf (resp : Dct) : Dct :=
  match dget (summaryOf resp) "metadata" with | some (.vDict m) => m | _ => []

/-- Predicate: `cache_key` currently has no live entry: absent, or present but expired
(line 674's `cached["expires_at"] > time.time()` is false). -/
def cache_miss (cache : Cache) (key : String) (now : ℚ) : Prop :=
  ∀ e, cacheGet cache key = some e → e.expires_at ≤ now

-- -------------------------
-- Stampede protection as a transition system (lines 672-736, 980-982)
-- -------------------------

namespace Stampede

/-!
N concurrent `/today` requests for one identical, currently-uncached key,
over asyncio's single-threaded cooperative scheduler.  Code between two
`await` points runs atomically; the handler's only suspension points on this
path are `lock.acquire()` (entering `async with lock`, line 713) and the
`asyncio.gather` of the fan-out (line 767) — generation, envelope assembly
and the cache store (lines 829-984) run without awaiting.  Hence one request
is one thread of this system with atomic blocks:

* `init → doneHitPre`: pre-lock cache check finds a live entry (lines
  673-697) and returns it;
* `init → waiting`: pre-lock check misses; the lock is created on demand
  (lines 708-711) and acquisition starts;
* `waiting → doneHitLocked`: acquisition granted and the double-check
  (lines 715-736) finds the entry another request stored; the lock is
  released on `return` (exit of `async with`, no intervening await);
* `waiting → fetching`: acquisition granted, double-check still misses,
  `asyncio.gather` is launched (line 767) while the lock is held;
* `fetching → doneFresh`: the gather settles and the rest of the handler
  runs atomically: the expensive generation executes, the response is stored
  iff `ttl > 0` (lines 980-982), the lock is released.

`cache = some p` records that the stored payload is the one produced by the
`p`-th execution of the expensive path; the scheduler is arbitrary (any
enabled thread may step), which subsumes asyncio's FIFO lock fairness.
Entries are assumed not to expire during the race (a race window shorter
than the TTL). -/

inductive PC where
  | init
  | waiting
  | fetching
  | doneHitPre (pid : Nat)
  | doneHitLocked (pid : Nat)
  | doneFresh (pid : Nat)
  deriving DecidableEq

def PC.isDone : PC → Bool
  | .doneHitPre _ => true
  | .doneHitLocked _ => true
  | .doneFresh _ => true
  | _ => false

/-- Did this thread execute the expensive fan-out + generation path? -/
def PC.isFresh : PC → Bool
  | .doneFresh _ => true
  | _ => false

structure St (n : Nat) where
  cache : Option Nat
  lock : Option (Fin n)
  pcs : Fin n → PC
  gens : Nat

def St.initial (n : Nat) : St n :=
  { cache := none, lock := none, pcs := fun _ => .init, gens := 0 }

/-- One atomic scheduler step; `ttlPos` is whether the shared capped TTL of
the N identical requests is positive (line 980's `if ttl > 0`). -/
inductive Step (ttlPos : Bool) : St n → St n → Prop
  | hitPre (s : St n) (i : Fin n) (p : Nat) :
      s.pcs i = .init → s.cache = some p →
      Step ttlPos s { s with pcs := Function.update s.pcs i (.doneHitPre p) }
  | toWait (s : St n) (i : Fin n) :
      s.pcs i = .init → s.cache = none →
      Step ttlPos s { s with pcs := Function.update s.pcs i .waiting }
  | acquireHit (s : St n) (i : Fin n) (p : Nat) :
      s.pcs i = .waiting → s.lock = none → s.cache = some p →
      Step ttlPos s { s with pcs := Function.update s.pcs i (.doneHitLocked p) }
  | acquireMiss (s : St n) (i : Fin n) :
      s.pcs i = .waiting → s.lock = none → s.cache = none →
      Step ttlPos s
        { s with pcs := Function.update s.pcs i .fetching, lock := some i }
  | finish (s : St n) (i : Fin n) :
      s.pcs i = .fetching → s.lock = some i →
      Step ttlPos s
        { s with
          pcs := Function.update s.pcs i (.doneFresh (s.gens + 1)),
          gens := s.gens + 1,
          cache := if ttlPos then some (s.gens + 1) else s.cache,
          lock := none }

inductive Reach (ttlPos : Bool) (n : Nat) : St n → Prop
  | refl : Reach ttlPos n (St.initial n)
  | step {s s' : St n} : Reach ttlPos n s → Step ttlPos s s' → Reach ttlPos n s'

/-- Inductive invariant of the race when caching is enabled. -/
structure Inv (s : St n) : Prop where
  lockFetch : ∀ i, s.lock = some i ↔ s.pcs i = .fetching
  cacheGens : (s.cache = none ∧ s.gens = 0) ∨ (s.cache = some 1 ∧ s.gens = 1)
  noneNoDone : s.gens = 0 → ∀ i, (s.pcs i).isDone = false
  fetchCache : ∀ i, s.pcs i = .fetching → s.cache = none ∧ s.gens = 0
  gensFresh : s.gens = 1 → ∃ i, s.pcs i = .doneFresh 1
  freshOnly : ∀ i p, s.pcs i = .doneFresh p → s.gens = 1 ∧ p = 1
  pids : ∀ i p, s.pcs i = .doneHitPre p ∨ s.pcs i = .doneHitLocked p → p = 1
  freshUnique : ∀ i j p q, s.pcs i = .doneFresh p → s.pcs j = .doneFresh q → i = j

end Stampede

-- -------------------------
-- Infrastructure lemmas
-- -------------------------

theorem dget_dset_self (d : Dct) (k : String) (v : Val) :
    dget (dset d k v) k = some v := by
  induction d with
  | nil => simp [dset, dget]
  | cons kv rest ih =>
      by_cases h : kv.1 = k
      · simp [dset, dget, h]
      · simpa [dset, dget, h] using ih

theorem dget_dset_ne (d : Dct) (k : String) (v : Val) (k' : String)
    (h : k ≠ k') : dget (dset d k v) k' = dget d k' := by
  induction d with
  | nil => simp [dset, dget, h]
  | cons kv rest ih =>
      by_cases h1 : kv.1 = k
      · simp [dset, dget, h1, h]
      · by_cases h2 : kv.1 = k' <;> simp [dset, dget, h1, h2, ih, Ne.symm h]

theorem dget_append_some {d : Dct} {k : String} {v : Val} (e : Dct)
    (h : dget d k = some v) : dget (d ++ e) k = some v := by
  induction d with
  | nil => simp [dget] at h
  | cons kv rest ih =>
      by_cases h1 : kv.1 = k
      · simp_all [dget]
      · simp_all [dget]

theorem dget_append_none {d : Dct} {k : String} (e : Dct)
    (h : dget d k = none) : dget (d ++ e) k = dget e k := by
  induction d with
  | nil => simp [dget]
  | cons kv rest ih =>
      by_cases h1 : kv.1 = k
      · simp_all [dget]
      · simp_all [dget]

theorem dget_dsetdefault_self (d : Dct) (k : String) (v : Val) :
    dget (dsetdefault d k v) k = some ((dget d k).getD v) := by
  unfold dsetdefault
  cases h : dget d k with
  | some w => simp [h]
  | none => simp [dget_append_none _ h, dget]

theorem dget_dsetdefault_ne (d : Dct) (k : String) (v : Val) (k' : String)
    (h : k ≠ k') : dget (dsetdefault d k v) k' = dget d k' := by
  unfold dsetdefault
  cases h1 : dget d k with
  | some w => rfl
  | none =>
      cases h2 : dget d k' with
      | some w => simp [dget_append_some _ h2]
      | none => simp [dget_append_none _ h2, dget, h]

theorem sget_sset_self (l : List (String × String)) (k v : String) :
    sget (sset l k v) k = some v := by
  induction l with
  | nil => simp [sset, sget]
  | cons kv rest ih =>
      by_cases h : kv.1 = k
      · simp [sset, sget, h]
      · simpa [sset, sget, h] using ih

theorem sget_sset_ne (l : List (String × String)) (k v k' : String)
    (h : k ≠ k') : sget (sset l k v) k' = sget l k' := by
  induction l with
  | nil => simp [sset, sget, h]
  | cons kv rest ih =>
      by_cases h1 : kv.1 = k
      · simp [sset, sget, h1, h]
      · by_cases h2 : kv.1 = k' <;> simp [sset, sget, h1, h2, ih, Ne.symm h]

theorem cacheGet_cacheSet_self (c : Cache) (k : String) (e : CacheEntry) :
    cacheGet (cacheSet c k e) k = some e := by
  induction c with
  | nil => simp [cacheSet, cacheGet]
  | cons kv rest ih =>
      by_cases h : kv.1 = k
      · simp [cacheSet, cacheGet, h]
      · simpa [cacheSet, cacheGet, h] using ih

theorem dget_mem {d : Dct} {k : String} {v : Val} (h : dget d k = some v) :
    (k, v) ∈ d := by
  induction d with
  | nil => simp [dget] at h
  | cons kv rest ih =>
      rcases kv with ⟨k1, v1⟩
      by_cases h1 : k1 = k
      · subst h1
        simp [dget] at h
        subst h
        exact List.mem_cons_self _ _
      · simp [dget, h1] at h
        exact List.mem_cons_of_mem _ (ih h)

theorem dget_eq_none_of_not_mem {d : Dct} {k : String}
    (h : k ∉ d.map Prod.fst) : dget d k = none := by
  induction d with
  | nil => simp [dget]
  | cons kv rest ih =>
      simp only [List.map_cons, List.mem_cons, not_or] at h
      simp [dget, Ne.symm h.1, ih h.2]

-- strings

theorem pyStrip_ne_empty {s : String} {c : Char} {t : List Char}
    (hd : s.data = c :: t) (hc : isPyWs c = false) : pyStrip s ≠ "" := by
  unfold pyStrip
  intro h
  have hl : ((s.data.dropWhile isPyWs).reverse.dropWhile isPyWs).reverse = [] := by
    have := congrArg String.data h
    simpa using this
  rw [List.reverse_eq_nil_iff] at hl
  have hmem : c ∈ (s.data.dropWhile isPyWs).reverse := by
    rw [hd, List.dropWhile_cons_of_neg (by simp [hc])]
    simp
  have := List.dropWhile_eq_nil_iff.mp hl c hmem
  simp [hc] at this

theorem joinSep_cons_data (sep a : String) (l : List String) :
    ∃ r : List Char, (joinSep sep (a :: l)).data = a.data ++ r := by
  cases l with
  | nil => exact ⟨[], by simp [joinSep]⟩
  | cons b bs =>
      exact ⟨sep.data ++ (joinSep sep (b :: bs)).data,
        by simp [joinSep, String.data_append]⟩

-- rounding

theorem pyRound2_dist (q : ℚ) : |pyRound2 q - q| ≤ 1 / 200 := by
  have hfl : (⌊q * 100⌋ : ℚ) ≤ q * 100 := Int.floor_le _
  have hfu : q * 100 < ⌊q * 100⌋ + 1 := Int.lt_floor_add_one _
  simp only [pyRound2]
  split_ifs with h1 h2 h3
  · rw [abs_le]
    constructor <;> push_cast <;> nlinarith
  · rw [not_lt] at h1
    rw [abs_le]
    constructor <;> push_cast <;> nlinarith
  · rw [not_lt] at h1 h2
    rw [abs_le]
    constructor <;> push_cast <;> nlinarith
  · rw [not_lt] at h1 h2
    rw [abs_le]
    constructor <;> push_cast <;> nlinarith

namespace Stampede

theorem inv_initial (n : Nat) : Inv (St.initial n) := by
  refine ⟨?_, ?_, ?_, ?_, ?_, ?_, ?_, ?_⟩ <;> simp [St.initial, PC.isDone]

theorem inv_step {n : Nat} {s s' : St n} (hinv : Inv s) (hstep : Step true s s') :
    Inv s' := by
  obtain ⟨lockFetch, cacheGens, noneNoDone, fetchCache, gensFresh, freshOnly,
    pids, freshUnique⟩ := hinv
  cases hstep with
  | hitPre i p hpc hc =>
      have hp1 : p = 1 ∧ s.gens = 1 := by
        rcases cacheGens with ⟨h1, _⟩ | ⟨h1, h2⟩
        · rw [hc] at h1; cases h1
        · rw [hc] at h1
          injection h1 with h
          exact ⟨h, h2⟩
      refine ⟨?_, ?_, ?_, ?_, ?_, ?_, ?_, ?_⟩
      · intro j
        by_cases hj : j = i
        · simp only [Function.update_apply, if_pos hj]
          constructor
          · intro hl
            have hft := (lockFetch j).mp hl
            rw [hj, hpc] at hft
            cases hft
          · intro hf; cases hf
        · simp only [Function.update_apply, if_neg hj]
          exact lockFetch j
      · exact cacheGens
      · intro h0
        have h0' : s.gens = 0 := h0
        exact absurd h0' (by omega)
      · intro j hj
        by_cases hji : j = i
        · simp only [Function.update_apply, if_pos hji] at hj; cases hj
        · simp only [Function.update_apply, if_neg hji] at hj
          have hcn := (fetchCache j hj).1
          rw [hcn] at hc; cases hc
      · intro h1
        obtain ⟨j, hj⟩ := gensFresh h1
        have hji : j ≠ i := by
          intro h; rw [h, hpc] at hj; cases hj
        exact ⟨j, by simp only [Function.update_apply, if_neg hji]; exact hj⟩
      · intro j p' hj
        by_cases hji : j = i
        · simp only [Function.update_apply, if_pos hji] at hj; cases hj
        · simp only [Function.update_apply, if_neg hji] at hj
          exact freshOnly j p' hj
      · intro j p' hj
        by_cases hji : j = i
        · simp only [Function.update_apply, if_pos hji] at hj
          rcases hj with hj | hj
          · injection hj with h
            omega
          · cases hj
        · simp only [Function.update_apply, if_neg hji] at hj
          exact pids j p' hj
      · intro j k p' q' hj hk
        have hji : j ≠ i := by
          intro h
          simp only [Function.update_apply, if_pos h] at hj
          cases hj
        have hki : k ≠ i := by
          intro h
          simp only [Function.update_apply, if_pos h] at hk
          cases hk
        simp only [Function.update_apply, if_neg hji] at hj
        simp only [Function.update_apply, if_neg hki] at hk
        exact freshUnique j k p' q' hj hk
  | toWait i hpc hc =>
      refine ⟨?_, ?_, ?_, ?_, ?_, ?_, ?_, ?_⟩
      · intro j
        by_cases hj : j = i
        · simp only [Function.update_apply, if_pos hj]
          constructor
          · intro hl
            have hft := (lockFetch j).mp hl
            rw [hj, hpc] at hft
            cases hft
          · intro hf; cases hf
        · simp only [Function.update_apply, if_neg hj]
          exact lockFetch j
      · exact cacheGens
      · intro h0 j
        by_cases hj : j = i
        · simp only [Function.update_apply, if_pos hj]
          rfl
        · simp only [Function.update_apply, if_neg hj]
          exact noneNoDone h0 j
      · intro j hj
        by_cases hji : j = i
        · simp only [Function.update_apply, if_pos hji] at hj; cases hj
        · simp only [Function.update_apply, if_neg hji] at hj
          exact fetchCache j hj
      · intro h1
        obtain ⟨j, hj⟩ := gensFresh h1
        have hji : j ≠ i := by
          intro h; rw [h, hpc] at hj; cases hj
        exact ⟨j, by simp only [Function.update_apply, if_neg hji]; exact hj⟩
      · intro j p' hj
        by_cases hji : j = i
        · simp only [Function.update_apply, if_pos hji] at hj; cases hj
        · simp only [Function.update_apply, if_neg hji] at hj
          exact freshOnly j p' hj
      · intro j p' hj
        by_cases hji : j = i
        · simp only [Function.update_apply, if_pos hji] at hj
          rcases hj with hj | hj <;> cases hj
        · simp only [Function.update_apply, if_neg hji] at hj
          exact pids j p' hj
      · intro j k p' q' hj hk
        have hji : j ≠ i := by
          intro h
          simp only [Function.update_apply, if_pos h] at hj
          cases hj
        have hki : k ≠ i := by
          intro h
          simp only [Function.update_apply, if_pos h] at hk
          cases hk
        simp only [Function.update_apply, if_neg hji] at hj
        simp only [Function.update_apply, if_neg hki] at hk
        exact freshUnique j k p' q' hj hk
  | acquireHit i p hpc hl hc =>
      have hp1 : p = 1 ∧ s.gens = 1 := by
        rcases cacheGens with ⟨h1, _⟩ | ⟨h1, h2⟩
        · rw [hc] at h1; cases h1
        · rw [hc] at h1
          injection h1 with h
          exact ⟨h, h2⟩
      refine ⟨?_, ?_, ?_, ?_, ?_, ?_, ?_, ?_⟩
      · intro j
        constructor
        · intro hlj
          rw [hl] at hlj; cases hlj
        · intro hf
          by_cases hji : j = i
          · simp only [Function.update_apply, if_pos hji] at hf
            cases hf
          · simp only [Function.update_apply, if_neg hji] at hf
            have := (lockFetch j).mpr hf
            rw [hl] at this; cases this
      · exact cacheGens
      · intro h0
        have h0' : s.gens = 0 := h0
        exact absurd h0' (by omega)
      · intro j hj
        by_cases hji : j = i
        · simp only [Function.update_apply, if_pos hji] at hj; cases hj
        · simp only [Function.update_apply, if_neg hji] at hj
          have hcn := (fetchCache j hj).1
          rw [hcn] at hc; cases hc
      · intro h1
        obtain ⟨j, hj⟩ := gensFresh h1
        have hji : j ≠ i := by
          intro h; rw [h, hpc] at hj; cases hj
        exact ⟨j, by simp only [Function.update_apply, if_neg hji]; exact hj⟩
      · intro j p' hj
        by_cases hji : j = i
        · simp only [Function.update_apply, if_pos hji] at hj; cases hj
        · simp only [Function.update_apply, if_neg hji] at hj
          exact freshOnly j p' hj
      · intro j p' hj
        by_cases hji : j = i
        · simp only [Function.update_apply, if_pos hji] at hj
          rcases hj with hj | hj
          · cases hj
          · injection hj with h
            omega
        · simp only [Function.update_apply, if_neg hji] at hj
          exact pids j p' hj
      · intro j k p' q' hj hk
        have hji : j ≠ i := by
          intro h
          simp only [Function.update_apply, if_pos h] at hj
          cases hj
        have hki : k ≠ i := by
          intro h
          simp only [Function.update_apply, if_pos h] at hk
          cases hk
        simp only [Function.update_apply, if_neg hji] at hj
        simp only [Function.update_apply, if_neg hki] at hk
        exact freshUnique j k p' q' hj hk
  | acquireMiss i hpc hl hc =>
      have hg0 : s.gens = 0 := by
        rcases cacheGens with ⟨_, h2⟩ | ⟨h1, _⟩
        · exact h2
        · rw [hc] at h1; cases h1
      refine ⟨?_, ?_, ?_, ?_, ?_, ?_, ?_, ?_⟩
      · intro j
        by_cases hji : j = i
        · simp only [Function.update_apply, if_pos hji]
          constructor
          · intro _; trivial
          · intro _; rw [hji]
        · simp only [Function.update_apply, if_neg hji]
          constructor
          · intro hlj
            injection hlj with h
            exact absurd h.symm hji
          · intro hf
            have := (lockFetch j).mpr hf
            rw [hl] at this; cases this
      · exact cacheGens
      · intro h0 j
        by_cases hji : j = i
        · simp only [Function.update_apply, if_pos hji]
          rfl
        · simp only [Function.update_apply, if_neg hji]
          exact noneNoDone h0 j
      · intro j _
        exact ⟨hc, hg0⟩
      · intro h1
        have h1' : s.gens = 1 := h1
        exact absurd h1' (by omega)
      · intro j p' hj
        by_cases hji : j = i
        · simp only [Function.update_apply, if_pos hji] at hj; cases hj
        · simp only [Function.update_apply, if_neg hji] at hj
          exact freshOnly j p' hj
      · intro j p' hj
        by_cases hji : j = i
        · simp only [Function.update_apply, if_pos hji] at hj
          rcases hj with hj | hj <;> cases hj
        · simp only [Function.update_apply, if_neg hji] at hj
          exact pids j p' hj
      · intro j k p' q' hj hk
        have hji : j ≠ i := by
          intro h
          simp only [Function.update_apply, if_pos h] at hj
          cases hj
        have hki : k ≠ i := by
          intro h
          simp only [Function.update_apply, if_pos h] at hk
          cases hk
        simp only [Function.update_apply, if_neg hji] at hj
        simp only [Function.update_apply, if_neg hki] at hk
        exact freshUnique j k p' q' hj hk
  | finish i hpc hl =>
      obtain ⟨hcn, hg0⟩ := fetchCache i hpc
      refine ⟨?_, ?_, ?_, ?_, ?_, ?_, ?_, ?_⟩
      · intro j
        constructor
        · intro hlj; cases hlj
        · intro hf
          by_cases hji : j = i
          · simp only [Function.update_apply, if_pos hji] at hf
            cases hf
          · simp only [Function.update_apply, if_neg hji] at hf
            have := (lockFetch j).mpr hf
            rw [hl] at this
            injection this with h
            exact absurd h.symm hji
      · right
        refine ⟨?_, ?_⟩
        · show (if true = true then some (s.gens + 1) else s.cache) = some 1
          rw [if_pos rfl, hg0]
        · show s.gens + 1 = 1
          omega
      · intro h0
        have h0' : s.gens + 1 = 0 := h0
        exact absurd h0' (by omega)
      · intro j hj
        by_cases hji : j = i
        · simp only [Function.update_apply, if_pos hji] at hj; cases hj
        · simp only [Function.update_apply, if_neg hji] at hj
          have := (lockFetch j).mpr hj
          rw [hl] at this
          injection this with h
          exact absurd h.symm hji
      · intro _
        refine ⟨i, ?_⟩
        simp [Function.update_apply, hg0]
      · intro j p' hj
        by_cases hji : j = i
        · simp only [Function.update_apply, if_pos hji] at hj
          injection hj with h
          constructor
          · show s.gens + 1 = 1
            omega
          · omega
        · simp only [Function.update_apply, if_neg hji] at hj
          have := (freshOnly j p' hj).1
          exact absurd this (by omega)
      · intro j p' hj
        by_cases hji : j = i
        · simp only [Function.update_apply, if_pos hji] at hj
          rcases hj with hj | hj <;> cases hj
        · simp only [Function.update_apply, if_neg hji] at hj
          exact pids j p' hj
      · intro j k p' q' hj hk
        by_cases hji : j = i
        · by_cases hki : k = i
          · rw [hji, hki]
          · simp only [Function.update_apply, if_neg hki] at hk
            have := (freshOnly k q' hk).1
            exact absurd this (by omega)
        · simp only [Function.update_apply, if_neg hji] at hj
          have := (freshOnly j p' hj).1
          exact absurd this (by omega)

theorem reach_inv {n : Nat} {s : St n} (h : Reach true n s) : Inv s := by
  induction h with
  | refl => exact inv_initial n
  | step _ hs ih => exact inv_step ih hs

end Stampede

/-- C2, as stated, is false: with `cache_ttl = 0` (a capped TTL of zero) the
store at line 980 is skipped, so N concurrent requests for one identical,
currently-uncached key each execute the expensive fan-out + generation path
in turn.  Concretely, for N = 2 there is a reachable completed race in which
both requests ran the expensive path, so "exactly one request executes the
expensive fan-out + generation path" fails. -/
theorem claim2_stampede_counterexample :
    ∃ s : Stampede.St 2, Stampede.Reach false 2 s ∧
      (∀ i, (s.pcs i).isDone = true) ∧
      (s.pcs 0).isFresh = true ∧ (s.pcs 1).isFresh = true ∧
      ¬(∃! i : Fin 2, (s.pcs i).isFresh = true) := by
  have r0 : Stampede.Reach false 2 (Stampede.St.initial 2) := Stampede.Reach.refl
  have r1 := r0.step (Stampede.Step.toWait _ 0 rfl rfl)
  have r2 := r1.step (Stampede.Step.acquireMiss _ 0 rfl rfl rfl)
  have r3 := r2.step (Stampede.Step.finish _ 0 rfl rfl)
  have r4 := r3.step (Stampede.Step.toWait _ 1 rfl rfl)
  have r5 := r4.step (Stampede.Step.acquireMiss _ 1 rfl rfl rfl)
  have r6 := r5.step (Stampede.Step.finish _ 1 rfl rfl)
  refine ⟨_, r6, by decide, by decide, by decide, ?_⟩
  rintro ⟨i, -, hu⟩
  have h0 := hu 0 (by decide)
  have h1 := hu 1 (by decide)
  exact absurd (h0.trans h1.symm) (by decide)

/-- C2 (amended): provided the capped TTL of the identical requests is
positive (caching enabled) and the entry does not expire during the race,
any completed race of N ≥ 1 concurrent requests for one identical,
currently-uncached key has exactly one request that executed the expensive
fan-out + generation path (it completed `doneFresh` with payload 1), and
every other request completed by observing the now-populated cache — either
at the pre-lock check or at the double-check after waiting on the per-key
lock — receiving the very payload (id 1) the single execution produced, so
all N responses are built from the same stored payload. -/
theorem claim2_stampede_coalescing_amended (n : Nat) (hn : 0 < n)
    (s : Stampede.St n) (hs : Stampede.Reach true n s)
    (hdone : ∀ i, (s.pcs i).isDone = true) :
    ∃ i, s.pcs i = .doneFresh 1 ∧
      ∀ j, j ≠ i → s.pcs j = .doneHitPre 1 ∨ s.pcs j = .doneHitLocked 1 := by
  have inv := Stampede.reach_inv hs
  have hg1 : s.gens = 1 := by
    rcases inv.cacheGens with ⟨_, h0⟩ | ⟨_, h1⟩
    · exfalso
      have hd := hdone ⟨0, hn⟩
      have hnd := inv.noneNoDone h0 ⟨0, hn⟩
      rw [hd] at hnd
      cases hnd
    · exact h1
  obtain ⟨i, hi⟩ := inv.gensFresh hg1
  refine ⟨i, hi, ?_⟩
  intro j hj
  have hdj := hdone j
  cases hpj : s.pcs j with
  | init => rw [hpj] at hdj; simp [Stampede.PC.isDone] at hdj
  | waiting => rw [hpj] at hdj; simp [Stampede.PC.isDone] at hdj
  | fetching => rw [hpj] at hdj; simp [Stampede.PC.isDone] at hdj
  | doneHitPre p =>
      have hp := inv.pids j p (Or.inl hpj)
      left
      rw [hp]
  | doneHitLocked p =>
      have hp := inv.pids j p (Or.inr hpj)
      right
      rw [hp]
  | doneFresh p =>
      exact absurd (inv.freshUnique j i p 1 hpj hi) hj

/-- Witness for C2 (amended): a concrete completed one-request race with a
positive TTL, to which the theorem applies. -/
theorem claim2_stampede_coalescing_amended_witness :
    ∃ s : Stampede.St 1, Stampede.Reach true 1 s ∧
      (∃ i, s.pcs i = .doneFresh 1 ∧
        ∀ j, j ≠ i → s.pcs j = .doneHitPre 1 ∨ s.pcs j = .doneHitLocked 1) := by
  have r0 : Stampede.Reach true 1 (Stampede.St.initial 1) := Stampede.Reach.refl
  have r1 := r0.step (Stampede.Step.toWait _ 0 rfl rfl)
  have r2 := r1.step (Stampede.Step.acquireMiss _ 0 rfl rfl rfl)
  have r3 := r2.step (Stampede.Step.finish _ 0 rfl rfl)
  exact ⟨_, r3, claim2_stampede_coalescing_amended 1 (by decide) _ r3 (by decide)⟩

/-- C4: for every candidate value of any type, the summary returned by the
validation/hardening stage (`_validate_or_fallback`) is a dict (the model
types it as `Dct`) in which `macro_summary`, `micro_summary` (itself a dict
containing `key_edges`, `risk_score` and `risk_rationale`), `analyst_takeaway`,
`confidence_summary` and `metadata` are all present — regardless of whether
upstream generation succeeded, failed, or was skipped (the candidate is
universally quantified, as are the soft-error state and the `ai_used` flag the
stage receives). -/
theorem claim4_hardening_postcondition (candidate : Val)
    (soft_errors : List (String × String)) (ai_used : Bool) (reasonPfx : String) :
    (dget (validate_or_fallback candidate soft_errors ai_used reasonPfx).1
        "macro_summary").isSome ∧
    (∃ m, dget (validate_or_fallback candidate soft_errors ai_used reasonPfx).1
        "micro_summary" = some (.vDict m) ∧
      (dget m "key_edges").isSome ∧ (dget m "risk_score").isSome ∧
      (dget m "risk_rationale").isSome) ∧
    (dget (validate_or_fallback candidate soft_errors ai_used reasonPfx).1
        "analyst_takeaway").isSome ∧
    (dget (validate_or_fallback candidate soft_errors ai_used reasonPfx).1
        "confidence_summary").isSome ∧
    (dget (validate_or_fallback candidate soft_errors ai_used reasonPfx).1
        "metadata").isSome := by
  cases candidate with
  | vDict d0 =>
      simp only [validate_or_fallback]
      refine ⟨?_, ?_, ?_, ?_, ?_⟩ <;>
        (repeat' split) <;>
          simp_all [dget_dset_self, dget_dset_ne, dget_dsetdefault_self,
            dget_dsetdefault_ne]
  | vNone =>
      simp [validate_or_fallback, fallback_summary, dget]
  | vBool b =>
      simp [validate_or_fallback, fallback_summary, dget]
  | vInt n =>
      simp [validate_or_fallback, fallback_summary, dget]
  | vFloat q =>
      simp [validate_or_fallback, fallback_summary, dget]
  | vStr s =>
      simp [validate_or_fallback, fallback_summary, dget]
  | vList xs =>
      simp [validate_or_fallback, fallback_summary, dget]

theorem mem_dset {kv : String × Val} : ∀ {d : Dct} {k : String} {v : Val},
    kv ∈ dset d k v → kv = (k, v) ∨ kv ∈ d := by
  intro d
  induction d with
  | nil =>
      intro k v h
      simp [dset] at h
      left; exact h
  | cons kv0 rest ih =>
      intro k v h
      rcases kv0 with ⟨k0, v0⟩
      by_cases h0 : k0 = k
      · simp only [dset, if_pos h0] at h
        rcases List.mem_cons.mp h with h | h
        · left; rw [h, h0]
        · right; exact List.mem_cons_of_mem _ h
      · simp only [dset, if_neg h0] at h
        rcases List.mem_cons.mp h with h | h
        · right; rw [h]; exact List.mem_cons_self _ _
        · rcases ih h with h | h
          · left; exact h
          · right; exact List.mem_cons_of_mem _ h

theorem sanitize_fold_entries (P : String × Val → Prop)
    (hP : ∀ k s, k ∈ ALLOWED_SOFT_ERROR_KEYS → P (k, Val.vStr s)) :
    ∀ (d : List (String × Val)) (acc : Dct), (∀ kv ∈ acc, P kv) →
      ∀ kv ∈ d.foldl (fun acc kv =>
          if kv.1 ∈ ALLOWED_SOFT_ERROR_KEYS then
            dset acc kv.1 (.vStr (match kv.2 with | .vNone => "" | v => pyStr v))
          else acc) acc, P kv := by
  intro d
  induction d with
  | nil => intro acc hacc kv h; exact hacc kv h
  | cons e rest ih =>
      intro acc hacc kv h
      rw [List.foldl_cons] at h
      refine ih _ ?_ kv h
      intro kv' h'
      by_cases he : e.1 ∈ ALLOWED_SOFT_ERROR_KEYS
      · rw [if_pos he] at h'
        rcases mem_dset h' with h1 | h1
        · rw [h1]; exact hP e.1 _ he
        · exact hacc kv' h1
      · rw [if_neg he] at h'
        exact hacc kv' h'

theorem sanitize_fold_dget :
    ∀ (d : List (String × Val)) (acc : Dct) (k : String),
      (d.map Prod.fst).Nodup → k ∈ ALLOWED_SOFT_ERROR_KEYS →
      dget (d.foldl (fun acc kv =>
          if kv.1 ∈ ALLOWED_SOFT_ERROR_KEYS then
            dset acc kv.1 (.vStr (match kv.2 with | .vNone => "" | v => pyStr v))
          else acc) acc) k =
        (match dget d k with
         | some w => some (.vStr (match w with | .vNone => "" | v => pyStr v))
         | none => dget acc k) := by
  intro d
  induction d with
  | nil => intro acc k _ _; simp [dget]
  | cons e rest ih =>
      intro acc k hnd hk
      rcases e with ⟨k0, w0⟩
      simp only [List.map_cons, List.nodup_cons] at hnd
      rw [List.foldl_cons]
      rw [ih _ k hnd.2 hk]
      by_cases h0 : k0 = k
      · subst h0
        have hrest : dget rest k0 = none := dget_eq_none_of_not_mem hnd.1
        rw [hrest]
        simp [dget, hk, dget_dset_self]
      · simp only [dget, if_neg h0]
        cases hr : dget rest k with
        | some w => rfl
        | none =>
            by_cases hall : k0 ∈ ALLOWED_SOFT_ERROR_KEYS
            · simp only [if_pos hall]
              exact dget_dset_ne _ _ _ _ h0
            · simp only [if_neg hall]

/-- C7, as stated, is false: entries under recognized keys do not always pass
through verbatim — the sanitizer coerces surviving values to strings
(`str(value) if value is not None else ""`).  At the input map
`{"ai": 5}` the recognized entry comes out as the string `"5"`, not the
original value `5`. -/
theorem claim7_sanitize_counterexample :
    sanitize_soft_errors (.vDict [("ai", .vInt 5)]) = [("ai", .vStr "5")] ∧
    Val.vStr "5" ≠ Val.vInt 5 := by
  constructor
  · rfl
  · intro h; cases h

/-- C7 (amended): for every input value, `_sanitize_soft_errors` returns a
dict whose keys all belong to the fixed allow-list
`{ai, trends, odds, games_today, player_props, markdown, template}` and whose
values are all strings; an entry under an unrecognized key never appears in
the output; a non-dict input yields the empty dict; and entries under
recognized keys are kept with their values coerced to strings — a value that
already is a string passes through verbatim, `None` becomes `""`, and any
other value becomes its `str()` rendering (input maps are Python dicts, so
their keys are distinct). -/
theorem claim7_sanitize_amended :
    (∀ v : Val, ∀ kv ∈ sanitize_soft_errors v,
        kv.1 ∈ ALLOWED_SOFT_ERROR_KEYS ∧ ∃ s, kv.2 = .vStr s) ∧
    (∀ v : Val, ∀ k, k ∉ ALLOWED_SOFT_ERROR_KEYS →
        dget (sanitize_soft_errors v) k = none) ∧
    (∀ v : Val, (∀ d, v ≠ .vDict d) → sanitize_soft_errors v = []) ∧
    (∀ (d : List (String × Val)) (k : String) (s : String),
        (d.map Prod.fst).Nodup → k ∈ ALLOWED_SOFT_ERROR_KEYS →
        dget d k = some (.vStr s) →
        dget (sanitize_soft_errors (.vDict d)) k = some (.vStr s)) ∧
    (∀ (d : List (String × Val)) (k : String) (w : Val),
        (d.map Prod.fst).Nodup → k ∈ ALLOWED_SOFT_ERROR_KEYS →
        dget d k = some w → w ≠ .vNone →
        dget (sanitize_soft_errors (.vDict d)) k = some (.vStr (pyStr w))) ∧
    (∀ (d : List (String × Val)) (k : String),
        (d.map Prod.fst).Nodup → k ∈ ALLOWED_SOFT_ERROR_KEYS →
        dget d k = some .vNone →
        dget (sanitize_soft_errors (.vDict d)) k = some (.vStr "")) := by
  have hentries : ∀ v : Val, ∀ kv ∈ sanitize_soft_errors v,
      kv.1 ∈ ALLOWED_SOFT_ERROR_KEYS ∧ ∃ s, kv.2 = .vStr s := by
    intro v kv h
    cases v with
    | vDict d =>
        simp only [sanitize_soft_errors] at h
        exact sanitize_fold_entries
          (fun kv => kv.1 ∈ ALLOWED_SOFT_ERROR_KEYS ∧ ∃ s, kv.2 = Val.vStr s)
          (fun k s hk => ⟨hk, ⟨s, rfl⟩⟩) d [] (by simp) kv h
    | vNone => simp [sanitize_soft_errors] at h
    | vBool b => simp [sanitize_soft_errors] at h
    | vInt n => simp [sanitize_soft_errors] at h
    | vFloat q => simp [sanitize_soft_errors] at h
    | vStr s => simp [sanitize_soft_errors] at h
    | vList xs => simp [sanitize_soft_errors] at h
  refine ⟨hentries, ?_, ?_, ?_, ?_, ?_⟩
  · intro v k hk
    cases h : dget (sanitize_soft_errors v) k with
    | none => rfl
    | some w =>
        exact absurd ((hentries v _ (dget_mem h)).1) hk
  · intro v hv
    cases v with
    | vDict d => exact absurd rfl (hv d)
    | vNone => rfl
    | vBool b => rfl
    | vInt n => rfl
    | vFloat q => rfl
    | vStr s => rfl
    | vList xs => rfl
  · intro d k s hnd hk hg
    simp only [sanitize_soft_errors]
    rw [sanitize_fold_dget d [] k hnd hk, hg]
    rfl
  · intro d k w hnd hk hg hw
    simp only [sanitize_soft_errors]
    rw [sanitize_fold_dget d [] k hnd hk, hg]
    cases w with
    | vNone => exact absurd rfl hw
    | vBool b => rfl
    | vInt n => rfl
    | vFloat q => rfl
    | vStr s => rfl
    | vList xs => rfl
    | vDict d2 => rfl
  · intro d k hnd hk hg
    simp only [sanitize_soft_errors]
    rw [sanitize_fold_dget d [] k hnd hk, hg]

/-- Witness for C7 (amended), at the concrete input
`{"ai": "x", "zzz": "y", "trends": None}`: the recognized string entry
passes through, the unrecognized key is dropped, and the `None` value is
coerced to `""`. -/
theorem claim7_sanitize_amended_witness :
    dget (sanitize_soft_errors
        (.vDict [("ai", .vStr "x"), ("zzz", .vStr "y"), ("trends", .vNone)]))
      "ai" = some (.vStr "x") ∧
    dget (sanitize_soft_errors
        (.vDict [("ai", .vStr "x"), ("zzz", .vStr "y"), ("trends", .vNone)]))
      "zzz" = none ∧
    dget (sanitize_soft_errors
        (.vDict [("ai", .vStr "x"), ("zzz", .vStr "y"), ("trends", .vNone)]))
      "trends" = some (.vStr "") := by
  refine ⟨?_, ?_, ?_⟩
  · exact claim7_sanitize_amended.2.2.2.1 _ "ai" "x" (by decide) (by decide) rfl
  · exact claim7_sanitize_amended.2.1 _ "zzz" (by decide)
  · exact claim7_sanitize_amended.2.2.2.2.2 _ "trends" (by decide) (by decide) rfl

/-- C3, as stated, is false: changing the `format` input while holding every
other input fixed does not always change the cache key, because the key
builder normalizes the format segment (`_fmt_key`: strip, lower-case,
`None`/empty to `"none"`).  Concretely, `format=None` and `format="none"` are
different request inputs that map to the identical key. -/
theorem claim3_key_separation_counterexample :
    build_cache_key "ai" 60 "today" none none true true false =
      build_cache_key "ai" 60 "today" (some "none") none true true false ∧
    (none : Option String) ≠ some "none" := by
  exact ⟨rfl, by simp⟩

/-- C3 (amended): the cache key separates every claimed dimension except that
`format` separates only up to its `_fmt_key` normalization: holding all other
builder inputs fixed, the key determines `mode`; with the effective-trends
value derived from the override as the endpoint does (`override.getD env`),
the key determines `trendsOverride` (in particular `None` — use server
default — is encoded distinctly from an explicit `False`, last conjunct);
two `format` values with different normal forms give different keys; and the
key determines `aiAllowed` and `compact`. -/
theorem claim3_key_separation_amended :
    (∀ (m₁ m₂ : String) (ttl : Int) (sc : String) (f : Option String)
        (o : Option Bool) (e a c : Bool),
        build_cache_key m₁ ttl sc f o e a c = build_cache_key m₂ ttl sc f o e a c →
        m₁ = m₂) ∧
    (∀ (m : String) (ttl : Int) (sc : String) (f : Option String)
        (env : Bool) (o₁ o₂ : Option Bool) (a c : Bool),
        build_cache_key m ttl sc f o₁ (o₁.getD env) a c =
          build_cache_key m ttl sc f o₂ (o₂.getD env) a c →
        o₁ = o₂) ∧
    (∀ (m : String) (ttl : Int) (sc : String) (f₁ f₂ : Option String)
        (o : Option Bool) (e a c : Bool),
        fmt_key f₁ ≠ fmt_key f₂ →
        build_cache_key m ttl sc f₁ o e a c ≠ build_cache_key m ttl sc f₂ o e a c) ∧
    (∀ (m : String) (ttl : Int) (sc : String) (f : Option String)
        (o : Option Bool) (e a₁ a₂ c : Bool),
        build_cache_key m ttl sc f o e a₁ c = build_cache_key m ttl sc f o e a₂ c →
        a₁ = a₂) ∧
    (∀ (m : String) (ttl : Int) (sc : String) (f : Option String)
        (o : Option Bool) (e a c₁ c₂ : Bool),
        build_cache_key m ttl sc f o e a c₁ = build_cache_key m ttl sc f o e a c₂ →
        c₁ = c₂) ∧
    (∀ (m : String) (ttl : Int) (sc : String) (f : Option String) (env a c : Bool),
        build_cache_key m ttl sc f none env a c ≠
          build_cache_key m ttl sc f (some false) false a c) := by
  refine ⟨?_, ?_, ?_, ?_, ?_, ?_⟩
  · intro m₁ m₂ ttl sc f o e a c h
    have h' := congrArg String.data h
    simp only [build_cache_key, String.data_append, List.append_assoc] at h'
    replace h' := List.append_cancel_left h'
    replace h' := List.append_cancel_right h'
    exact String.ext h'
  · intro m ttl sc f env o₁ o₂ a c h
    have h' := congrArg String.data h
    simp only [build_cache_key, String.data_append, List.append_assoc,
      Option.getD] at h'
    rcases o₁ with _ | b₁ <;> rcases o₂ with _ | b₂
    · rfl
    · exfalso
      simp only [String.data_append, List.append_assoc] at h'
      iterate 9 replace h' := List.append_cancel_left h'
      simp at h'
    · exfalso
      simp only [String.data_append, List.append_assoc] at h'
      iterate 9 replace h' := List.append_cancel_left h'
      simp at h'
    · rcases b₁ <;> rcases b₂
      · rfl
      · exfalso
        simp only [String.data_append, List.append_assoc] at h'
        iterate 10 replace h' := List.append_cancel_left h'
        simp at h'
      · exfalso
        simp only [String.data_append, List.append_assoc] at h'
        iterate 10 replace h' := List.append_cancel_left h'
        simp at h'
      · rfl
  · intro m ttl sc f₁ f₂ o e a c hf h
    apply hf
    have h' := congrArg String.data h
    simp only [build_cache_key, String.data_append, List.append_assoc] at h'
    iterate 7 replace h' := List.append_cancel_left h'
    replace h' := List.append_cancel_right h'
    exact String.ext h'
  · intro m ttl sc f o e a₁ a₂ c h
    rcases a₁ <;> rcases a₂
    · rfl
    · exfalso
      have h' := congrArg String.data h
      simp only [build_cache_key, String.data_append, List.append_assoc] at h'
      iterate 12 replace h' := List.append_cancel_left h'
      simp at h'
    · exfalso
      have h' := congrArg String.data h
      simp only [build_cache_key, String.data_append, List.append_assoc] at h'
      iterate 12 replace h' := List.append_cancel_left h'
      simp at h'
    · rfl
  · intro m ttl sc f o e a c₁ c₂ h
    rcases c₁ <;> rcases c₂
    · rfl
    · exfalso
      have h' := congrArg String.data h
      simp only [build_cache_key, String.data_append, List.append_assoc] at h'
      iterate 15 replace h' := List.append_cancel_left h'
      simp at h'
    · exfalso
      have h' := congrArg String.data h
      simp only [build_cache_key, String.data_append, List.append_assoc] at h'
      iterate 15 replace h' := List.append_cancel_left h'
      simp at h'
    · rfl
  · intro m ttl sc f env a c h
    have h' := congrArg String.data h
    simp only [build_cache_key, String.data_append, List.append_assoc] at h'
    iterate 9 replace h' := List.append_cancel_left h'
    simp at h'

/-- Witness for C3 (amended): concrete instantiations of each hypothesised
conjunct. -/
theorem claim3_key_separation_amended_witness :
    ("ai" : String) = "ai" ∧ (some true : Option Bool) = some true ∧
    build_cache_key "t" 0 "today" (some "markdown") none true true false ≠
      build_cache_key "t" 0 "today" none none true true false := by
  refine ⟨?_, ?_, ?_⟩
  · exact claim3_key_separation_amended.1 "ai" "ai" 0 "today" none none true
      true false rfl
  · exact claim3_key_separation_amended.2.1 "t" 0 "today" none true
      (some true) (some true) true false rfl
  · exact claim3_key_separation_amended.2.2.1 "t" 0 "today" (some "markdown")
      none none true true false (by decide)

theorem get_daily_narrative_miss (req : Req) (env : Env) (o : Oracle) (now : ℚ)
    (cache : Cache)
    (h : cache_miss cache
      (build_cache_key req.mode (cap_ttl req.cache_ttl) "today" req.format
        (parse_trends_override req.trends)
        ((parse_trends_override req.trends).getD env.enableTrendsEnv)
        (ai_allowed_of env.disableAi env.openaiKey) false) now) :
    (get_daily_narrative req env o now cache).1 =
      (fresh_response req env o (cap_ttl req.cache_ttl)
        (parse_trends_override req.trends)
        ((parse_trends_override req.trends).getD env.enableTrendsEnv)
        (ai_allowed_of env.disableAi env.openaiKey)
        (build_cache_key req.mode (cap_ttl req.cache_ttl) "today" req.format
          (parse_trends_override req.trends)
          ((parse_trends_override req.trends).getD env.enableTrendsEnv)
          (ai_allowed_of env.disableAi env.openaiKey) false)).1 ∧
    (get_daily_narrative req env o now cache).2.2 =
      (fresh_response req env o (cap_ttl req.cache_ttl)
        (parse_trends_override req.trends)
        ((parse_trends_override req.trends).getD env.enableTrendsEnv)
        (ai_allowed_of env.disableAi env.openaiKey)
        (build_cache_key req.mode (cap_ttl req.cache_ttl) "today" req.format
          (parse_trends_override req.trends)
          ((parse_trends_override req.trends).getD env.enableTrendsEnv)
          (ai_allowed_of env.disableAi env.openaiKey) false)).2 := by
  unfold get_daily_narrative
  cases hc : cacheGet cache
      (build_cache_key req.mode (cap_ttl req.cache_ttl) "today" req.format
        (parse_trends_override req.trends)
        ((parse_trends_override req.trends).getD env.enableTrendsEnv)
        (ai_allowed_of env.disableAi env.openaiKey) false) with
  | none => simp [hc]
  | some e =>
      have he := h e hc
      simp [hc, not_lt.mpr he]

-- -------------------------
-- Component lemmas for the /today response
-- -------------------------

theorem gate_summary_not_ai (o : Oracle) (nd : Dct) (rm : String) (ai : Bool)
    (se : List (String × String)) (h : rm ≠ "ai") :
    gate_summary o nd rm ai se =
      (match build_grounded_template_summary nd with
       | .ok d => (.vDict d, false, se, false)
       | .error e =>
           (.vDict (fallback_summary ("Template generation threw: " ++ e.text)),
            false, sset se "template" ("Template generation threw: " ++ e.text),
            false)) := by
  simp [gate_summary, h]

theorem gate_summary_ai_blocked (o : Oracle) (nd : Dct)
    (se : List (String × String)) :
    gate_summary o nd "ai" false se =
      (.vDict (fallback_summary
          "AI mode requested but not allowed (OPENAI_API_KEY missing/disabled)."),
       false,
       sset se "ai"
          "AI mode requested but not allowed (OPENAI_API_KEY missing/disabled).",
       false) := by
  simp [gate_summary]

theorem gate_summary_ai_throw (o : Oracle) (nd : Dct)
    (se : List (String × String)) (e : PyExn)
    (hg : o.generate nd "ai" = .error e) :
    gate_summary o nd "ai" true se =
      (.vDict (fallback_summary ("AI generation threw: " ++ e.text)), false,
       sset se "ai" ("AI generation threw: " ++ e.text), true) := by
  simp [gate_summary, hg]

theorem gate_summary_ai_ok (o : Oracle) (nd : Dct)
    (se : List (String × String)) (v : Val)
    (hg : o.generate nd "ai" = .ok v) :
    gate_summary o nd "ai" true se = (v, true, se, true) := by
  simp [gate_summary, hg]

theorem validate_or_fallback_dict (d : Dct) (se : List (String × String))
    (aiu : Bool) (pfx : String) :
    (validate_or_fallback (.vDict d) se aiu pfx).2.1 = aiu ∧
    (validate_or_fallback (.vDict d) se aiu pfx).2.2 = se := by
  simp [validate_or_fallback]

theorem validate_or_fallback_fallback (r : String) (se : List (String × String))
    (aiu : Bool) (pfx : String) :
    validate_or_fallback (.vDict (fallback_summary r)) se aiu pfx =
      (fallback_summary r, aiu, se) := by
  simp [validate_or_fallback, fallback_summary, dget, dset, dsetdefault]

theorem vres_of_not_ai_snd (o : Oracle) (nd : Dct) (rm : String) (ai : Bool)
    (se : List (String × String)) (h : rm ≠ "ai") :
    (vres_of o nd rm ai se).2.1 = false := by
  unfold vres_of
  rw [gate_summary_not_ai o nd rm ai se h]
  split <;> simp [validate_or_fallback]

theorem fresh_response_snd (req : Req) (env : Env) (o : Oracle) (ttl : Int)
    (override : Option Bool) (eff ai : Bool) (key : String) :
    (fresh_response req env o ttl override eff ai key).2 =
      (gate_summary o (narrative_data_of o (run_fanout env o eff))
        (requested_mode_of req.mode) ai
        (seed_soft_errors (run_fanout env o eff))).2.2.2 := rfl

theorem fresh_response_dget_ok (req : Req) (env : Env) (o : Oracle) (ttl : Int)
    (override : Option Bool) (eff ai : Bool) (key : String) :
    dget (fresh_response req env o ttl override eff ai key).1 "ok" =
      some (.vBool true) := by
  unfold fresh_response
  by_cases hf : (match req.format with | none => "" | some s => pyLower s) = "markdown" <;>
    simp [hf, dget, dset]

theorem fresh_response_dget_summary (req : Req) (env : Env) (o : Oracle)
    (ttl : Int) (override : Option Bool) (eff ai : Bool) (key : String) :
    dget (fresh_response req env o ttl override eff ai key).1 "summary" =
      some (.vDict (summary1_of o (narrative_data_of o (run_fanout env o eff))
        (requested_mode_of req.mode) ai (seed_soft_errors (run_fanout env o eff)))) := by
  unfold fresh_response
  by_cases hf : (match req.format with | none => "" | some s => pyLower s) = "markdown" <;>
    simp [hf, dget, dset]

theorem fresh_response_dget_raw (req : Req) (env : Env) (o : Oracle)
    (ttl : Int) (override : Option Bool) (eff ai : Bool) (key : String) :
    dget (fresh_response req env o ttl override eff ai key).1 "raw" =
      some (.vDict (narrative_data_of o (run_fanout env o eff) ++
        [("meta", .vDict (response_meta o (run_fanout env o eff)
          (narrative_data_of o (run_fanout env o eff)) ttl override eff key
          (requested_mode_of req.mode)
          (sanitize_soft_errors (.vDict
            (((vres_of o (narrative_data_of o (run_fanout env o eff))
                (requested_mode_of req.mode) ai
                (seed_soft_errors (run_fanout env o eff))).2.2).map
              (fun kv => (kv.1, Val.vStr kv.2)))))))])) := by
  unfold fresh_response
  by_cases hf : (match req.format with | none => "" | some s => pyLower s) = "markdown" <;>
    simp [hf, dget, dset]

theorem fresh_response_dget_markdown (req : Req) (env : Env) (o : Oracle)
    (ttl : Int) (override : Option Bool) (eff ai : Bool) (key : String)
    (fv : String) (hf : req.format = some fv) (hmd : pyLower fv = "markdown") :
    dget (fresh_response req env o ttl override eff ai key).1 "markdown" =
      some (.vStr (render_markdown
        (summary1_of o (narrative_data_of o (run_fanout env o eff))
          (requested_mode_of req.mode) ai (seed_soft_errors (run_fanout env o eff)))
        false)) := by
  unfold fresh_response
  simp [hf, hmd, dget, dset, dget_dset_self]

theorem rawOf_fresh (req : Req) (env : Env) (o : Oracle) (ttl : Int)
    (override : Option Bool) (eff ai : Bool) (key : String) :
    rawOf (fresh_response req env o ttl override eff ai key).1 =
      narrative_data_of o (run_fanout env o eff) ++
        [("meta", .vDict (response_meta o (run_fanout env o eff)
          (narrative_data_of o (run_fanout env o eff)) ttl override eff key
          (requested_mode_of req.mode)
          (sanitize_soft_errors (.vDict
            (((vres_of o (narrative_data_of o (run_fanout env o eff))
                (requested_mode_of req.mode) ai
                (seed_soft_errors (run_fanout env o eff))).2.2).map
              (fun kv => (kv.1, Val.vStr kv.2)))))))] := by
  unfold rawOf
  rw [fresh_response_dget_raw]

theorem metaOf_fresh (req : Req) (env : Env) (o : Oracle) (ttl : Int)
    (override : Option Bool) (eff ai : Bool) (key : String) :
    metaOf (fresh_response req env o ttl override eff ai key).1 =
      response_meta o (run_fanout env o eff)
        (narrative_data_of o (run_fanout env o eff)) ttl override eff key
        (requested_mode_of req.mode)
        (sanitize_soft_errors (.vDict
          (((vres_of o (narrative_data_of o (run_fanout env o eff))
              (requested_mode_of req.mode) ai
              (seed_soft_errors (run_fanout env o eff))).2.2).map
            (fun kv => (kv.1, Val.vStr kv.2))))) := by
  unfold metaOf
  rw [rawOf_fresh]
  rw [dget_append_none]
  · simp [dget]
  · simp [narrative_data_of, dget]

theorem softErrorsOf_fresh (req : Req) (env : Env) (o : Oracle) (ttl : Int)
    (override : Option Bool) (eff ai : Bool) (key : String) :
    softErrorsOf (fresh_response req env o ttl override eff ai key).1 =
      sanitize_soft_errors (.vDict
        (((vres_of o (narrative_data_of o (run_fanout env o eff))
            (requested_mode_of req.mode) ai
            (seed_soft_errors (run_fanout env o eff))).2.2).map
          (fun kv => (kv.1, Val.vStr kv.2)))) := by
  unfold softErrorsOf
  rw [metaOf_fresh]
  simp [response_meta, dget]

theorem summaryOf_fresh (req : Req) (env : Env) (o : Oracle) (ttl : Int)
    (override : Option Bool) (eff ai : Bool) (key : String) :
    summaryOf (fresh_response req env o ttl override eff ai key).1 =
      summary1_of o (narrative_data_of o (run_fanout env o eff))
        (requested_mode_of req.mode) ai (seed_soft_errors (run_fanout env o eff)) := by
  unfold summaryOf
  rw [fresh_response_dget_summary]

theorem summaryMetadataOf_fresh (req : Req) (env : Env) (o : Oracle) (ttl : Int)
    (override : Option Bool) (eff ai : Bool) (key : String) :
    summaryMetadataOf (fresh_response req env o ttl override eff ai key).1 =
      stamped_metadata o (narrative_data_of o (run_fanout env o eff))
        (requested_mode_of req.mode) ai
        (vres_of o (narrative_data_of o (run_fanout env o eff))
          (requested_mode_of req.mode) ai (seed_soft_errors (run_fanout env o eff))).1
        (vres_of o (narrative_data_of o (run_fanout env o eff))
          (requested_mode_of req.mode) ai
          (seed_soft_errors (run_fanout env o eff))).2.1 := by
  unfold summaryMetadataOf
  rw [summaryOf_fresh]
  simp [summary1_of, dget_dset_self]

theorem stamped_metadata_dget_ai_used (o : Oracle) (nd : Dct) (rm : String)
    (ai : Bool) (s0 : Dct) (aiu : Bool) :
    dget (stamped_metadata o nd rm ai s0 aiu) "ai_used" = some (.vBool aiu) := by
  unfold stamped_metadata
  simp [dupdate, dget_dset_self, dget_dset_ne]

theorem stamped_metadata_dget_model (o : Oracle) (nd : Dct) (rm : String)
    (ai : Bool) (s0 : Dct) (aiu : Bool) :
    dget (stamped_metadata o nd rm ai s0 aiu) "model" =
      some (dgetD
        (match dget s0 "metadata" with | some (.vDict m) => m | _ => [])
        "model" (.vStr (if ¬(rm = "ai") then "template" else "gpt-4o"))) := by
  unfold stamped_metadata
  simp [dupdate, dget_dset_self, dget_dset_ne]

/-- C10: for every mode string whose stripped, lower-cased form is not
exactly "ai" (including arbitrary unrecognized values like "foo"), the /today
endpoint takes the deterministic template path: `generate_narrative_summary`
is never invoked (the model's third component records exactly the generator's
call sites, and it is false — unconditionally, also on cache hits), and on a
fresh evaluation (no live cache entry) the response's `metadata.ai_used` is
false.  (`mode=""` first becomes "template" via `mode or "template"`.) -/
theorem claim10_mode_normalization (req : Req) (env : Env) (o : Oracle)
    (now : ℚ) (cache : Cache)
    (hmode : pyLower (pyStrip (if req.mode = "" then "template" else req.mode))
      ≠ "ai") :
    (get_daily_narrative req env o now cache).2.2 = false ∧
    (cache_miss cache
        (build_cache_key req.mode (cap_ttl req.cache_ttl) "today" req.format
          (parse_trends_override req.trends)
          ((parse_trends_override req.trends).getD env.enableTrendsEnv)
          (ai_allowed_of env.disableAi env.openaiKey) false) now →
      dget (summaryMetadataOf (get_daily_narrative req env o now cache).1)
        "ai_used" = some (.vBool false)) := by
  have hrm : requested_mode_of req.mode ≠ "ai" := hmode
  constructor
  · unfold get_daily_narrative
    cases hc : cacheGet cache
        (build_cache_key req.mode (cap_ttl req.cache_ttl) "today" req.format
          (parse_trends_override req.trends)
          ((parse_trends_override req.trends).getD env.enableTrendsEnv)
          (ai_allowed_of env.disableAi env.openaiKey) false) with
    | some e =>
        by_cases he : e.expires_at > now
        · simp [hc, he]
        · simp only [hc]
          rw [if_neg he]
          simp only []
          rw [fresh_response_snd, gate_summary_not_ai _ _ _ _ _ hrm]
          split <;> rfl
    | none =>
        simp only [hc]
        rw [fresh_response_snd, gate_summary_not_ai _ _ _ _ _ hrm]
        split <;> rfl
  · intro hmiss
    rw [(get_daily_narrative_miss req env o now cache hmiss).1]
    rw [summaryMetadataOf_fresh, stamped_metadata_dget_ai_used,
      vres_of_not_ai_snd _ _ _ _ _ hrm]

/-- Witness for C10: a concrete unrecognized mode "foo" on an empty cache. -/
theorem claim10_mode_normalization_witness :
    (get_daily_narrative ⟨"foo", 0, none, none⟩
        ⟨false, "0", "k", false⟩
        ⟨.ok [], .ok ⟨"d", []⟩, .ok [], .ok ⟨[], []⟩,
         fun _ _ => .error ⟨"X", "never"⟩, "rid", "iso", "utc", fun _ => "dig"⟩
        0 []).2.2 = false ∧
    dget (summaryMetadataOf (get_daily_narrative ⟨"foo", 0, none, none⟩
        ⟨false, "0", "k", false⟩
        ⟨.ok [], .ok ⟨"d", []⟩, .ok [], .ok ⟨[], []⟩,
         fun _ _ => .error ⟨"X", "never"⟩, "rid", "iso", "utc", fun _ => "dig"⟩
        0 []).1) "ai_used" = some (.vBool false) := by
  have h := claim10_mode_normalization ⟨"foo", 0, none, none⟩
      ⟨false, "0", "k", false⟩
      ⟨.ok [], .ok ⟨"d", []⟩, .ok [], .ok ⟨[], []⟩,
       fun _ _ => .error ⟨"X", "never"⟩, "rid", "iso", "utc", fun _ => "dig"⟩
      0 [] (by decide)
  exact ⟨h.1, h.2 (fun e he => by cases he)⟩


-- -------------------------
-- Soft-error plumbing lemmas
-- -------------------------

theorem sget_eq_none_of_not_mem {l : List (String × String)} {k : String}
    (h : k ∉ l.map Prod.fst) : sget l k = none := by
  induction l with
  | nil => rfl
  | cons kv rest ih =>
      simp only [List.map_cons, List.mem_cons, not_or] at h
      simp [sget, Ne.symm h.1, ih h.2]

theorem sget_some_mem {l : List (String × String)} {k v : String}
    (h : sget l k = some v) : k ∈ l.map Prod.fst := by
  induction l with
  | nil => simp [sget] at h
  | cons kv rest ih =>
      by_cases h1 : kv.1 = k
      · simp [h1]
      · simp [sget, h1] at h
        simp [ih h, h1]

theorem sset_map_fst_some {l : List (String × String)} {k w : String} (v : String)
    (h : sget l k = some w) : (sset l k v).map Prod.fst = l.map Prod.fst := by
  induction l with
  | nil => simp [sget] at h
  | cons kv rest ih =>
      by_cases h1 : kv.1 = k
      · simp [sset, h1]
      · simp [sget, h1] at h
        simp [sset, h1, ih h]

theorem sset_map_fst_none {l : List (String × String)} {k : String} (v : String)
    (h : sget l k = none) : (sset l k v).map Prod.fst = l.map Prod.fst ++ [k] := by
  induction l with
  | nil => simp [sset]
  | cons kv rest ih =>
      by_cases h1 : kv.1 = k
      · simp [sget, h1] at h
      · simp [sget, h1] at h
        simp [sset, h1, ih h]

theorem sget_isSome_of_mem {l : List (String × String)} {k : String}
    (h : k ∈ l.map Prod.fst) : (sget l k).isSome := by
  induction l with
  | nil => simp at h
  | cons kv rest ih =>
      by_cases h1 : kv.1 = k
      · simp [sget, h1]
      · simp only [List.map_cons, List.mem_cons] at h
        rcases h with h | h
        · exact absurd h.symm h1
        · simp only [sget, if_neg h1]
          exact ih h

theorem sset_nodup {l : List (String × String)} {k : String} (v : String)
    (hnd : (l.map Prod.fst).Nodup) : ((sset l k v).map Prod.fst).Nodup := by
  cases h : sget l k with
  | some w => rw [sset_map_fst_some v h]; exact hnd
  | none =>
      rw [sset_map_fst_none v h]
      have hk : k ∉ l.map Prod.fst := by
        intro hm
        have hs := sget_isSome_of_mem hm
        rw [h] at hs
        cases hs
      simp [List.nodup_append, hnd, hk]

theorem dget_map_vstr (l : List (String × String)) (k : String) :
    dget (l.map (fun kv => (kv.1, Val.vStr kv.2))) k =
      Option.map Val.vStr (sget l k) := by
  induction l with
  | nil => rfl
  | cons kv rest ih =>
      by_cases h1 : kv.1 = k <;> simp [dget, sget, h1, ih]

theorem map_fst_vstr (l : List (String × String)) :
    ((l.map (fun kv => (kv.1, Val.vStr kv.2))).map Prod.fst) = l.map Prod.fst := by
  induction l with
  | nil => rfl
  | cons kv rest ih => simp [ih]

theorem sget_seed (f : FanOut) :
    sget (seed_soft_errors f) "games_today" = f.games_err ∧
    sget (seed_soft_errors f) "odds" = f.odds_err ∧
    sget (seed_soft_errors f) "trends" = f.trends_err ∧
    sget (seed_soft_errors f) "player_props" = f.player_props_err := by
  unfold seed_soft_errors
  rcases hg : f.games_err <;> rcases ho : f.odds_err <;>
    rcases ht : f.trends_err <;> rcases hp : f.player_props_err <;>
      simp [sget, sset]

theorem seed_keys (f : FanOut) :
    ((seed_soft_errors f).map Prod.fst).Nodup ∧
    (∀ kv ∈ seed_soft_errors f, kv.1 ∈ ALLOWED_SOFT_ERROR_KEYS) ∧
    sget (seed_soft_errors f) "ai" = none ∧
    sget (seed_soft_errors f) "template" = none := by
  unfold seed_soft_errors
  rcases hg : f.games_err <;> rcases ho : f.odds_err <;>
    rcases ht : f.trends_err <;> rcases hp : f.player_props_err <;>
      refine ⟨by simp [sset], ?_, by simp [sget, sset], by simp [sget, sset]⟩ <;>
        (intro kv hkv; simp [sset] at hkv) <;>
          (rcases hkv with h | h | h | h <;> simp_all [ALLOWED_SOFT_ERROR_KEYS])

theorem mem_sset {kv : String × String} : ∀ {l : List (String × String)}
    {k v : String}, kv ∈ sset l k v → kv = (k, v) ∨ kv ∈ l := by
  intro l
  induction l with
  | nil =>
      intro k v h
      simp [sset] at h
      left; exact h
  | cons kv0 rest ih =>
      intro k v h
      rcases kv0 with ⟨k0, v0⟩
      by_cases h0 : k0 = k
      · simp only [sset, if_pos h0] at h
        rcases List.mem_cons.mp h with h | h
        · left; rw [h, h0]
        · right; exact List.mem_cons_of_mem _ h
      · simp only [sset, if_neg h0] at h
        rcases List.mem_cons.mp h with h | h
        · right; rw [h]; exact List.mem_cons_self _ _
        · rcases ih h with h | h
          · left; exact h
          · right; exact List.mem_cons_of_mem _ h

theorem validate_se_other (c : Val) (se : List (String × String)) (aiu : Bool)
    (pfx : String) (k : String) (h1 : k ≠ "ai") :
    sget (validate_or_fallback c se aiu pfx).2.2 k = sget se k := by
  cases c <;> simp [validate_or_fallback, sget_sset_ne _ _ _ _ (Ne.symm h1)]

theorem validate_se_nodup (c : Val) (se : List (String × String)) (aiu : Bool)
    (pfx : String) (hnd : (se.map Prod.fst).Nodup) :
    (((validate_or_fallback c se aiu pfx).2.2).map Prod.fst).Nodup := by
  cases c <;> simp [validate_or_fallback, sset_nodup _ hnd, hnd]

theorem validate_se_allowed (c : Val) (se : List (String × String)) (aiu : Bool)
    (pfx : String) (hall : ∀ kv ∈ se, kv.1 ∈ ALLOWED_SOFT_ERROR_KEYS) :
    ∀ kv ∈ (validate_or_fallback c se aiu pfx).2.2,
      kv.1 ∈ ALLOWED_SOFT_ERROR_KEYS := by
  cases c <;>
    simp only [validate_or_fallback] <;>
    intro kv hkv
  case vDict => exact hall kv hkv
  all_goals
    rcases mem_sset hkv with h | h
    · rw [h]; simp [ALLOWED_SOFT_ERROR_KEYS]
    · exact hall kv h

theorem gate_se_other (o : Oracle) (nd : Dct) (rm : String) (ai : Bool)
    (se : List (String × String)) (k : String) (h1 : k ≠ "ai")
    (h2 : k ≠ "template") :
    sget (gate_summary o nd rm ai se).2.2.1 k = sget se k := by
  unfold gate_summary
  split
  · exact sget_sset_ne _ _ _ _ (Ne.symm h1)
  · split
    · split
      · rfl
      · exact sget_sset_ne _ _ _ _ (Ne.symm h1)
    · split
      · rfl
      · exact sget_sset_ne _ _ _ _ (Ne.symm h2)

theorem gate_se_nodup (o : Oracle) (nd : Dct) (rm : String) (ai : Bool)
    (se : List (String × String)) (hnd : (se.map Prod.fst).Nodup) :
    (((gate_summary o nd rm ai se).2.2.1).map Prod.fst).Nodup := by
  unfold gate_summary
  split
  · exact sset_nodup _ hnd
  · split
    · split
      · exact hnd
      · exact sset_nodup _ hnd
    · split
      · exact hnd
      · exact sset_nodup _ hnd

theorem gate_se_allowed (o : Oracle) (nd : Dct) (rm : String) (ai : Bool)
    (se : List (String × String))
    (hall : ∀ kv ∈ se, kv.1 ∈ ALLOWED_SOFT_ERROR_KEYS) :
    ∀ kv ∈ (gate_summary o nd rm ai se).2.2.1,
      kv.1 ∈ ALLOWED_SOFT_ERROR_KEYS := by
  unfold gate_summary
  split
  · intro kv hkv
    rcases mem_sset hkv with h | h
    · rw [h]; simp [ALLOWED_SOFT_ERROR_KEYS]
    · exact hall kv h
  · split
    · split
      · exact hall
      · intro kv hkv
        rcases mem_sset hkv with h | h
        · rw [h]; simp [ALLOWED_SOFT_ERROR_KEYS]
        · exact hall kv h
    · split
      · exact hall
      · intro kv hkv
        rcases mem_sset hkv with h | h
        · rw [h]; simp [ALLOWED_SOFT_ERROR_KEYS]
        · exact hall kv h

theorem vres_se_other (o : Oracle) (nd : Dct) (rm : String) (ai : Bool)
    (se : List (String × String)) (k : String) (h1 : k ≠ "ai")
    (h2 : k ≠ "template") :
    sget (vres_of o nd rm ai se).2.2 k = sget se k := by
  unfold vres_of
  rw [validate_se_other _ _ _ _ _ h1]
  exact gate_se_other _ _ _ _ _ _ h1 h2

theorem vres_se_nodup (o : Oracle) (nd : Dct) (rm : String) (ai : Bool)
    (se : List (String × String)) (hnd : (se.map Prod.fst).Nodup) :
    (((vres_of o nd rm ai se).2.2).map Prod.fst).Nodup := by
  unfold vres_of
  exact validate_se_nodup _ _ _ _ (gate_se_nodup _ _ _ _ _ hnd)

theorem vres_se_allowed (o : Oracle) (nd : Dct) (rm : String) (ai : Bool)
    (se : List (String × String))
    (hall : ∀ kv ∈ se, kv.1 ∈ ALLOWED_SOFT_ERROR_KEYS) :
    ∀ kv ∈ (vres_of o nd rm ai se).2.2, kv.1 ∈ ALLOWED_SOFT_ERROR_KEYS := by
  unfold vres_of
  exact validate_se_allowed _ _ _ _ (gate_se_allowed _ _ _ _ _ hall)

/-- Looking a source key up in the sanitized soft errors of the final
response equals looking it up in the raw string map. -/
theorem sanitize_of_se (se : List (String × String)) (k : String)
    (hnd : (se.map Prod.fst).Nodup)
    (hall : ∀ kv ∈ se, kv.1 ∈ ALLOWED_SOFT_ERROR_KEYS)
    (hk : k ∈ ALLOWED_SOFT_ERROR_KEYS) :
    dget (sanitize_soft_errors
      (.vDict (se.map (fun kv => (kv.1, Val.vStr kv.2))))) k =
      Option.map Val.vStr (sget se k) := by
  simp only [sanitize_soft_errors]
  rw [sanitize_fold_dget _ _ k (by rw [map_fst_vstr]; exact hnd) hk]
  rw [dget_map_vstr]
  cases h : sget se k with
  | none => simp [dget]
  | some w => simp [pyStr]

/-- C6: whenever mode="ai", AI is allowed, and the generation collaborator
throws, the fault is caught and recorded as `soft_errors["ai"]` with a
message beginning with the literal substring "AI generation threw", the
canonical fallback summary is returned instead (its macro lines, its
risk rationale carrying the recorded reason, and its `ROUTE_FALLBACK` model
tag all surface in the response), and the response still completes with
`ok=true`. -/
theorem claim6_ai_throw_contract (req : Req) (env : Env) (o : Oracle)
    (now : ℚ) (cache : Cache) (e : PyExn)
    (hm : req.mode = "ai")
    (ha : ai_allowed_of env.disableAi env.openaiKey = true)
    (hg : ∀ d m, o.generate d m = .error e)
    (hmiss : cache_miss cache
      (build_cache_key req.mode (cap_ttl req.cache_ttl) "today" req.format
        (parse_trends_override req.trends)
        ((parse_trends_override req.trends).getD env.enableTrendsEnv)
        (ai_allowed_of env.disableAi env.openaiKey) false) now) :
    dget (get_daily_narrative req env o now cache).1 "ok" = some (.vBool true) ∧
    (∃ s, dget (softErrorsOf (get_daily_narrative req env o now cache).1) "ai" =
        some (.vStr s) ∧ ∃ t, s = "AI generation threw" ++ t) ∧
    dget (summaryOf (get_daily_narrative req env o now cache).1)
        "macro_summary" =
      some (.vList
        [ .vStr "NBA narrative is available in fallback mode.",
          .vStr "Detailed AI narrative is currently unavailable for this request." ]) ∧
    (∃ m, dget (summaryOf (get_daily_narrative req env o now cache).1)
        "micro_summary" = some (.vDict m) ∧
      dget m "risk_rationale" =
        some (.vStr ("AI generation threw: " ++ e.text))) ∧
    dget (summaryMetadataOf (get_daily_narrative req env o now cache).1)
        "model" = some (.vStr "ROUTE_FALLBACK") := by
  have hmiss' := get_daily_narrative_miss req env o now cache hmiss
  have hrm : requested_mode_of req.mode = "ai" := by rw [hm]; rfl
  rw [hmiss'.1]
  have hvres : ∀ se, vres_of o
      (narrative_data_of o (run_fanout env o
        ((parse_trends_override req.trends).getD env.enableTrendsEnv)))
      (requested_mode_of req.mode)
      (ai_allowed_of env.disableAi env.openaiKey) se =
      (fallback_summary ("AI generation threw: " ++ e.text), false,
        sset se "ai" ("AI generation threw: " ++ e.text)) := by
    intro se
    simp only [vres_of, hrm, ha]
    rw [gate_summary_ai_throw _ _ _ e (hg _ "ai")]
    exact validate_or_fallback_fallback _ _ _ _
  refine ⟨fresh_response_dget_ok _ _ _ _ _ _ _ _, ?_, ?_, ?_, ?_⟩
  · rw [softErrorsOf_fresh, hvres]
    have hseed := seed_keys (run_fanout env o
        ((parse_trends_override req.trends).getD env.enableTrendsEnv))
    rw [sanitize_of_se _ _ (sset_nodup _ hseed.1) ?hall (by decide)]
    · rw [sget_sset_self]
      refine ⟨"AI generation threw: " ++ e.text, rfl, ": " ++ e.text, ?_⟩
      apply String.ext
      simp [String.data_append]
    case hall =>
      intro kv hkv
      rcases mem_sset hkv with h | h
      · rw [h]; simp [ALLOWED_SOFT_ERROR_KEYS]
      · exact hseed.2.1 kv h
  · rw [summaryOf_fresh]
    simp only [summary1_of, hvres]
    rw [dget_dset_ne _ _ _ _ (by decide)]
    simp [fallback_summary, dget]
  · rw [summaryOf_fresh]
    simp only [summary1_of, hvres]
    rw [dget_dset_ne _ _ _ _ (by decide)]
    exact ⟨[("key_edges", .vList []), ("risk_score", .vFloat 0),
        ("risk_rationale", .vStr ("AI generation threw: " ++ e.text))],
      by simp [fallback_summary, dget], by simp [dget]⟩
  · rw [summaryMetadataOf_fresh]
    simp only [hvres]
    rw [stamped_metadata_dget_model]
    simp [fallback_summary, dget, dgetD]

/-- Witness for C6: concrete AI-mode request whose generator throws. -/
theorem claim6_ai_throw_contract_witness :
    dget (get_daily_narrative ⟨"ai", 0, none, none⟩ ⟨false, "0", "sk", false⟩
        ⟨.ok [], .ok ⟨"d", []⟩, .ok [], .ok ⟨[], []⟩,
         fun _ _ => .error ⟨"APIError", "boom"⟩, "rid", "iso", "utc",
         fun _ => "dig"⟩ 0 []).1 "ok" = some (.vBool true) :=
  (claim6_ai_throw_contract ⟨"ai", 0, none, none⟩ ⟨false, "0", "sk", false⟩
    ⟨.ok [], .ok ⟨"d", []⟩, .ok [], .ok ⟨[], []⟩,
     fun _ _ => .error ⟨"APIError", "boom"⟩, "rid", "iso", "utc",
     fun _ => "dig"⟩ 0 [] ⟨"APIError", "boom"⟩ rfl (by decide)
    (fun _ _ => rfl) (fun e he => by cases he)).1

theorem strip_join_ne (hd : String) (t0 : List Char) (hh : hd.data = '*' :: t0)
    (rest : List String) : pyStrip (joinSep "\n" (hd :: rest)) ≠ "" := by
  obtain ⟨r, hr⟩ := joinSep_cons_data "\n" hd rest
  refine pyStrip_ne_empty (c := '*') (t := t0 ++ r) ?_ (by decide)
  rw [hr, hh]
  rfl

/-- The markdown rendering always begins with the literal header line, so it
never strips to the empty string. -/
theorem render_markdown_ne_empty (summary : Dct) :
    render_markdown summary false ≠ "" := by
  simp only [render_markdown]
  simp only [List.append_assoc, List.cons_append, List.singleton_append,
    Bool.false_eq_true, not_false_eq_true, if_true]
  exact strip_join_ne _ _ rfl _

/-- C1: total availability — for every /today request with mode="ai", AI
allowed and format="markdown", if every source fetch throws (games, odds,
player props, and the trends fetch; trends also records a soft error when it
is disabled or unavailable) and the generation call throws, the returned
envelope still has `ok=true`, a non-empty markdown string, and a
`soft_errors` map containing an entry for every failed source plus "ai". -/
theorem claim1_total_availability (req : Req) (env : Env) (o : Oracle)
    (now : ℚ) (cache : Cache) (e1 e2 e3 e4 e5 : PyExn)
    (hm : req.mode = "ai") (hf : req.format = some "markdown")
    (ha : ai_allowed_of env.disableAi env.openaiKey = true)
    (hg : o.games = .error e1) (ho : o.odds = .error e2)
    (hp : o.player_props = .error e3) (ht : o.trendsFetch = .error e4)
    (hgen : ∀ d m, o.generate d m = .error e5)
    (hmiss : cache_miss cache
      (build_cache_key req.mode (cap_ttl req.cache_ttl) "today" req.format
        (parse_trends_override req.trends)
        ((parse_trends_override req.trends).getD env.enableTrendsEnv)
        (ai_allowed_of env.disableAi env.openaiKey) false) now) :
    dget (get_daily_narrative req env o now cache).1 "ok" = some (.vBool true) ∧
    (∃ s, dget (get_daily_narrative req env o now cache).1 "markdown" =
        some (.vStr s) ∧ s ≠ "") ∧
    (dget (softErrorsOf (get_daily_narrative req env o now cache).1)
        "games_today").isSome ∧
    (dget (softErrorsOf (get_daily_narrative req env o now cache).1)
        "odds").isSome ∧
    (dget (softErrorsOf (get_daily_narrative req env o now cache).1)
        "player_props").isSome ∧
    (dget (softErrorsOf (get_daily_narrative req env o now cache).1)
        "trends").isSome ∧
    (dget (softErrorsOf (get_daily_narrative req env o now cache).1)
        "ai").isSome := by
  have hmiss' := get_daily_narrative_miss req env o now cache hmiss
  have hrm : requested_mode_of req.mode = "ai" := by rw [hm]; rfl
  rw [hmiss'.1]
  have hseed := seed_keys (run_fanout env o
      ((parse_trends_override req.trends).getD env.enableTrendsEnv))
  have hsget := sget_seed (run_fanout env o
      ((parse_trends_override req.trends).getD env.enableTrendsEnv))
  have hvres : ∀ se, vres_of o
      (narrative_data_of o (run_fanout env o
        ((parse_trends_override req.trends).getD env.enableTrendsEnv)))
      (requested_mode_of req.mode)
      (ai_allowed_of env.disableAi env.openaiKey) se =
      (fallback_summary ("AI generation threw: " ++ e5.text), false,
        sset se "ai" ("AI generation threw: " ++ e5.text)) := by
    intro se
    simp only [vres_of, hrm, ha]
    rw [gate_summary_ai_throw _ _ _ e5 (hgen _ "ai")]
    exact validate_or_fallback_fallback _ _ _ _
  have hse : ∀ k, k ∈ ALLOWED_SOFT_ERROR_KEYS →
      dget (softErrorsOf ((fresh_response req env o (cap_ttl req.cache_ttl)
        (parse_trends_override req.trends)
        ((parse_trends_override req.trends).getD env.enableTrendsEnv)
        (ai_allowed_of env.disableAi env.openaiKey)
        (build_cache_key req.mode (cap_ttl req.cache_ttl) "today" req.format
          (parse_trends_override req.trends)
          ((parse_trends_override req.trends).getD env.enableTrendsEnv)
          (ai_allowed_of env.disableAi env.openaiKey) false)).1)) k =
      Option.map Val.vStr (sget (sset
        (seed_soft_errors (run_fanout env o
          ((parse_trends_override req.trends).getD env.enableTrendsEnv)))
        "ai" ("AI generation threw: " ++ e5.text)) k) := by
    intro k hk
    rw [softErrorsOf_fresh, hvres]
    refine sanitize_of_se _ _ (sset_nodup _ hseed.1) ?_ hk
    intro kv hkv
    rcases mem_sset hkv with h | h
    · rw [h]; simp [ALLOWED_SOFT_ERROR_KEYS]
    · exact hseed.2.1 kv h
  have hfg : (run_fanout env o
      ((parse_trends_override req.trends).getD env.enableTrendsEnv)).games_err =
      some ("games_today: " ++ e1.text) := by
    simp [run_fanout, hg, safeResult]
  have hfo : (run_fanout env o
      ((parse_trends_override req.trends).getD env.enableTrendsEnv)).odds_err =
      some ("odds: " ++ e2.text) := by
    simp [run_fanout, ho, safeResult]
  have hfp : (run_fanout env o
      ((parse_trends_override req.trends).getD env.enableTrendsEnv)).player_props_err =
      some ("player_props: " ++ e3.text) := by
    simp [run_fanout, hp, safeResult]
  have hft : ∃ t, (run_fanout env o
      ((parse_trends_override req.trends).getD env.enableTrendsEnv)).trends_err =
      some t := by
    by_cases heff : (parse_trends_override req.trends).getD env.enableTrendsEnv
    · by_cases hav : env.trendsAgentAvailable
      · exact ⟨"trends: " ++ e4.text, by simp [run_fanout, heff, hav, ht, safeResult]⟩
      · exact ⟨"Trends agent unavailable (import failed).",
          by simp [run_fanout, heff, hav]⟩
    · exact ⟨"Disabled (trends=0 override or ENABLE_TRENDS_IN_NARRATIVE=0).",
        by simp [run_fanout, heff]⟩
  obtain ⟨t, hft⟩ := hft
  refine ⟨fresh_response_dget_ok _ _ _ _ _ _ _ _, ?_, ?_, ?_, ?_, ?_, ?_⟩
  · refine ⟨_, fresh_response_dget_markdown _ _ _ _ _ _ _ _ "markdown" hf rfl, ?_⟩
    exact render_markdown_ne_empty _
  · rw [hse "games_today" (by decide), sget_sset_ne _ _ _ _ (by decide),
      hsget.1, hfg]
    rfl
  · rw [hse "odds" (by decide), sget_sset_ne _ _ _ _ (by decide),
      hsget.2.1, hfo]
    rfl
  · rw [hse "player_props" (by decide), sget_sset_ne _ _ _ _ (by decide),
      hsget.2.2.2, hfp]
    rfl
  · rw [hse "trends" (by decide), sget_sset_ne _ _ _ _ (by decide),
      hsget.2.2.1, hft]
    rfl
  · rw [hse "ai" (by decide), sget_sset_self]
    rfl

/-- Witness for C1: a concrete worst-case request — every collaborator
throws, AI is allowed, markdown requested. -/
theorem claim1_total_availability_witness :
    dget (get_daily_narrative ⟨"ai", 5, some "markdown", some 1⟩
        ⟨false, "0", "sk", true⟩
        ⟨.error ⟨"RuntimeError", "g"⟩, .error ⟨"ValueError", "o"⟩,
         .error ⟨"RuntimeError", "p"⟩, .error ⟨"KeyError", "t"⟩,
         fun _ _ => .error ⟨"APIError", "a"⟩, "rid", "iso", "utc",
         fun _ => "dig"⟩ 0 []).1 "ok" = some (.vBool true) :=
  (claim1_total_availability ⟨"ai", 5, some "markdown", some 1⟩
    ⟨false, "0", "sk", true⟩
    ⟨.error ⟨"RuntimeError", "g"⟩, .error ⟨"ValueError", "o"⟩,
     .error ⟨"RuntimeError", "p"⟩, .error ⟨"KeyError", "t"⟩,
     fun _ _ => .error ⟨"APIError", "a"⟩, "rid", "iso", "utc",
     fun _ => "dig"⟩ 0 [] ⟨"RuntimeError", "g"⟩ ⟨"ValueError", "o"⟩
    ⟨"RuntimeError", "p"⟩ ⟨"KeyError", "t"⟩ ⟨"APIError", "a"⟩ rfl rfl
    (by decide) rfl rfl rfl rfl (fun _ _ => rfl) (fun e he => by cases he)).1

theorem get_daily_narrative_miss_cache (req : Req) (env : Env) (o : Oracle)
    (now : ℚ) (cache : Cache)
    (h : cache_miss cache
      (build_cache_key req.mode (cap_ttl req.cache_ttl) "today" req.format
        (parse_trends_override req.trends)
        ((parse_trends_override req.trends).getD env.enableTrendsEnv)
        (ai_allowed_of env.disableAi env.openaiKey) false) now)
    (hpos : 0 < cap_ttl req.cache_ttl) :
    (get_daily_narrative req env o now cache).2.1 =
      cacheSet cache
        (build_cache_key req.mode (cap_ttl req.cache_ttl) "today" req.format
          (parse_trends_override req.trends)
          ((parse_trends_override req.trends).getD env.enableTrendsEnv)
          (ai_allowed_of env.disableAi env.openaiKey) false)
        ⟨now + cap_ttl req.cache_ttl,
         (fresh_response req env o (cap_ttl req.cache_ttl)
           (parse_trends_override req.trends)
           ((parse_trends_override req.trends).getD env.enableTrendsEnv)
           (ai_allowed_of env.disableAi env.openaiKey)
           (build_cache_key req.mode (cap_ttl req.cache_ttl) "today" req.format
             (parse_trends_override req.trends)
             ((parse_trends_override req.trends).getD env.enableTrendsEnv)
             (ai_allowed_of env.disableAi env.openaiKey) false)).1⟩ := by
  unfold get_daily_narrative
  cases hc : cacheGet cache
      (build_cache_key req.mode (cap_ttl req.cache_ttl) "today" req.format
        (parse_trends_override req.trends)
        ((parse_trends_override req.trends).getD env.enableTrendsEnv)
        (ai_allowed_of env.disableAi env.openaiKey) false) with
  | none => simp [hc, hpos]
  | some e =>
      have he := h e hc
      simp [hc, not_lt.mpr he, hpos]

theorem serve_cached_payload_spec (stored raw meta : Dct) (ck : String)
    (ttl : Int) (ei : ℚ) (rid : String)
    (hraw : dget stored "raw" = some (.vDict raw))
    (hmeta : dget raw "meta" = some (.vDict meta)) :
    serve_cached_payload stored ck ttl ei rid =
      (dset stored "raw" (.vDict (dset raw "meta"
          (.vDict (dupdate meta (hit_meta_fields ck ttl ei rid))))),
       dset stored "raw" (.vDict (dset raw "meta"
          (.vDict (dupdate meta (hit_meta_fields ck ttl ei rid)))))) := by
  simp [serve_cached_payload, hraw, hmeta]

theorem get_daily_narrative_hit (req : Req) (env : Env) (o : Oracle)
    (now : ℚ) (cache : Cache) (entry : CacheEntry)
    (hget : cacheGet cache
      (build_cache_key req.mode (cap_ttl req.cache_ttl) "today" req.format
        (parse_trends_override req.trends)
        ((parse_trends_override req.trends).getD env.enableTrendsEnv)
        (ai_allowed_of env.disableAi env.openaiKey) false) = some entry)
    (hlive : now < entry.expires_at) :
    get_daily_narrative req env o now cache =
      ((serve_cached_payload entry.payload
          (build_cache_key req.mode (cap_ttl req.cache_ttl) "today" req.format
            (parse_trends_override req.trends)
            ((parse_trends_override req.trends).getD env.enableTrendsEnv)
            (ai_allowed_of env.disableAi env.openaiKey) false)
          (cap_ttl req.cache_ttl) (entry.expires_at - now) o.requestId).1,
       cacheSet cache
         (build_cache_key req.mode (cap_ttl req.cache_ttl) "today" req.format
           (parse_trends_override req.trends)
           ((parse_trends_override req.trends).getD env.enableTrendsEnv)
           (ai_allowed_of env.disableAi env.openaiKey) false)
         ⟨entry.expires_at,
          (serve_cached_payload entry.payload
            (build_cache_key req.mode (cap_ttl req.cache_ttl) "today" req.format
              (parse_trends_override req.trends)
              ((parse_trends_override req.trends).getD env.enableTrendsEnv)
              (ai_allowed_of env.disableAi env.openaiKey) false)
            (cap_ttl req.cache_ttl) (entry.expires_at - now) o.requestId).2⟩,
       false) := by
  simp [get_daily_narrative, hget, hlive]

theorem metaOf_serve_hit (stored raw meta : Dct) (ck : String) (ttl : Int)
    (ei : ℚ) (rid : String)
    (hraw : dget stored "raw" = some (.vDict raw))
    (hmeta : dget raw "meta" = some (.vDict meta)) :
    metaOf (serve_cached_payload stored ck ttl ei rid).1 =
        dupdate meta (hit_meta_fields ck ttl ei rid) ∧
    metaOf (serve_cached_payload stored ck ttl ei rid).2 =
        dupdate meta (hit_meta_fields ck ttl ei rid) := by
  rw [serve_cached_payload_spec stored raw meta ck ttl ei rid hraw hmeta]
  constructor <;> simp [metaOf, rawOf, dget_dset_self]

theorem dget_dupdate_hit_fields (meta : Dct) (ck : String) (ttl : Int)
    (ei : ℚ) (rid : String) :
    dget (dupdate meta (hit_meta_fields ck ttl ei rid)) "cache_used" =
        some (.vBool true) ∧
    dget (dupdate meta (hit_meta_fields ck ttl ei rid)) "latency_ms" =
        some (.vFloat 0) ∧
    dget (dupdate meta (hit_meta_fields ck ttl ei rid)) "cache_expires_in_s" =
        some (.vFloat (pyRound2 ei)) ∧
    dget (dupdate meta (hit_meta_fields ck ttl ei rid)) "request_id" =
        some (.vStr rid) := by
  have hu : dupdate meta (hit_meta_fields ck ttl ei rid) =
      dset (dset (dset (dset (dset (dset meta "latency_ms" (.vFloat 0))
        "cache_used" (.vBool true)) "cache_key" (.vStr ck)) "cache_ttl_s"
        (.vInt ttl)) "cache_expires_in_s" (.vFloat (pyRound2 ei)))
        "request_id" (.vStr rid) := rfl
  refine ⟨?_, ?_, ?_, ?_⟩
  · rw [hu, dget_dset_ne _ _ _ _ (by decide), dget_dset_ne _ _ _ _ (by decide),
      dget_dset_ne _ _ _ _ (by decide), dget_dset_ne _ _ _ _ (by decide),
      dget_dset_self]
  · rw [hu, dget_dset_ne _ _ _ _ (by decide), dget_dset_ne _ _ _ _ (by decide),
      dget_dset_ne _ _ _ _ (by decide), dget_dset_ne _ _ _ _ (by decide),
      dget_dset_ne _ _ _ _ (by decide), dget_dset_self]
  · rw [hu, dget_dset_ne _ _ _ _ (by decide), dget_dset_self]
  · rw [hu, dget_dset_self]

/-- C9: serving a cache hit is not read-only on `_CACHE`.  The served payload
is a shallow copy of the stored one, so the hit-path writes into
`raw["meta"]` (latency_ms=0.0, cache_used=True, cache_expires_in_s, the
current request_id) land in the stored entry as well: after the hit the
store holds, under the same key and expiry, exactly the payload that was
returned, and its meta carries cache_used=True and the request_id of this
hit for all subsequent readers. -/
theorem claim9_cache_hit_mutates_store (req : Req) (env : Env) (o : Oracle)
    (now : ℚ) (cache : Cache) (entry : CacheEntry) (raw meta : Dct)
    (hget : cacheGet cache
      (build_cache_key req.mode (cap_ttl req.cache_ttl) "today" req.format
        (parse_trends_override req.trends)
        ((parse_trends_override req.trends).getD env.enableTrendsEnv)
        (ai_allowed_of env.disableAi env.openaiKey) false) = some entry)
    (hlive : now < entry.expires_at)
    (hraw : dget entry.payload "raw" = some (.vDict raw))
    (hmeta : dget raw "meta" = some (.vDict meta)) :
    ∃ stored,
      cacheGet (get_daily_narrative req env o now cache).2.1
          (build_cache_key req.mode (cap_ttl req.cache_ttl) "today" req.format
            (parse_trends_override req.trends)
            ((parse_trends_override req.trends).getD env.enableTrendsEnv)
            (ai_allowed_of env.disableAi env.openaiKey) false) =
        some ⟨entry.expires_at, stored⟩ ∧
      (get_daily_narrative req env o now cache).1 = stored ∧
      dget (metaOf stored) "cache_used" = some (.vBool true) ∧
      dget (metaOf stored) "request_id" = some (.vStr o.requestId) ∧
      dget (metaOf stored) "latency_ms" = some (.vFloat 0) ∧
      dget (metaOf stored) "cache_expires_in_s" =
        some (.vFloat (pyRound2 (entry.expires_at - now))) := by
  have hh := get_daily_narrative_hit req env o now cache entry hget hlive
  refine ⟨(serve_cached_payload entry.payload
      (build_cache_key req.mode (cap_ttl req.cache_ttl) "today" req.format
        (parse_trends_override req.trends)
        ((parse_trends_override req.trends).getD env.enableTrendsEnv)
        (ai_allowed_of env.disableAi env.openaiKey) false)
      (cap_ttl req.cache_ttl) (entry.expires_at - now) o.requestId).2,
    ?_, ?_, ?_, ?_, ?_, ?_⟩
  · rw [hh]
    exact cacheGet_cacheSet_self _ _ _
  · rw [hh]
    rw [serve_cached_payload_spec entry.payload raw meta _ _ _ _ hraw hmeta]
  · rw [(metaOf_serve_hit entry.payload raw meta _ _ _ _ hraw hmeta).2]
    exact (dget_dupdate_hit_fields _ _ _ _ _).1
  · rw [(metaOf_serve_hit entry.payload raw meta _ _ _ _ hraw hmeta).2]
    exact (dget_dupdate_hit_fields _ _ _ _ _).2.2.2
  · rw [(metaOf_serve_hit entry.payload raw meta _ _ _ _ hraw hmeta).2]
    exact (dget_dupdate_hit_fields _ _ _ _ _).2.1
  · rw [(metaOf_serve_hit entry.payload raw meta _ _ _ _ hraw hmeta).2]
    exact (dget_dupdate_hit_fields _ _ _ _ _).2.2.1

/-- Witness for C9: a concrete stored entry served 0 seconds into a
10-second expiry window. -/
theorem claim9_cache_hit_mutates_store_witness :
    ∃ stored,
      cacheGet (get_daily_narrative ⟨"template", 10, none, some 0⟩
          ⟨true, "0", "sk", true⟩
          ⟨.ok [], .ok ⟨"d", []⟩, .ok [], .ok ⟨[], []⟩,
           fun _ _ => .error ⟨"X", "x"⟩, "rid9", "iso", "utc",
           fun _ => "dig"⟩ 0
          [(build_cache_key "template" (cap_ttl 10) "today" none
              (parse_trends_override (some 0))
              ((parse_trends_override (some 0)).getD true)
              (ai_allowed_of "0" "sk") false,
            ⟨10, [("raw", .vDict [("meta", .vDict [])])]⟩)]).2.1
        (build_cache_key "template" (cap_ttl 10) "today" none
          (parse_trends_override (some 0))
          ((parse_trends_override (some 0)).getD true)
          (ai_allowed_of "0" "sk") false) = some ⟨10, stored⟩ ∧
      (get_daily_narrative ⟨"template", 10, none, some 0⟩
          ⟨true, "0", "sk", true⟩
          ⟨.ok [], .ok ⟨"d", []⟩, .ok [], .ok ⟨[], []⟩,
           fun _ _ => .error ⟨"X", "x"⟩, "rid9", "iso", "utc",
           fun _ => "dig"⟩ 0
          [(build_cache_key "template" (cap_ttl 10) "today" none
              (parse_trends_override (some 0))
              ((parse_trends_override (some 0)).getD true)
              (ai_allowed_of "0" "sk") false,
            ⟨10, [("raw", .vDict [("meta", .vDict [])])]⟩)]).1 = stored ∧
      dget (metaOf stored) "cache_used" = some (.vBool true) ∧
      dget (metaOf stored) "request_id" = some (.vStr "rid9") ∧
      dget (metaOf stored) "latency_ms" = some (.vFloat 0) ∧
      dget (metaOf stored) "cache_expires_in_s" =
        some (.vFloat (pyRound2 (10 - 0))) :=
  claim9_cache_hit_mutates_store ⟨"template", 10, none, some 0⟩
    ⟨true, "0", "sk", true⟩
    ⟨.ok [], .ok ⟨"d", []⟩, .ok [], .ok ⟨[], []⟩,
     fun _ _ => .error ⟨"X", "x"⟩, "rid9", "iso", "utc",
     fun _ => "dig"⟩ 0
    [(build_cache_key "template" (cap_ttl 10) "today" none
        (parse_trends_override (some 0))
        ((parse_trends_override (some 0)).getD true)
        (ai_allowed_of "0" "sk") false,
      ⟨10, [("raw", .vDict [("meta", .vDict [])])]⟩)]
    ⟨10, [("raw", .vDict [("meta", .vDict [])])]⟩
    [("meta", .vDict [])] []
    (by simp [cacheGet]) (by norm_num) rfl rfl

theorem dget_nd_meta (o : Oracle) (f : FanOut) (m : Dct) :
    dget (narrative_data_of o f ++ [("meta", .vDict m)]) "meta" =
      some (.vDict m) := by
  rw [dget_append_none]
  · simp [dget]
  · simp [narrative_data_of, dget]

/-- C8 counterexample: with cache_ttl=10, a second identical request 1 ms
after the first is a cache hit (cache_used=True), yet `round(expires_in, 2)`
reports cache_expires_in_s = 10.0 — exactly the originally requested TTL,
not strictly less than it. -/
theorem claim8_cache_hit_counterexample :
    dget (metaOf (get_daily_narrative ⟨"template", 10, none, some 0⟩
        ⟨true, "0", "sk", true⟩
        ⟨.ok [], .ok ⟨"d", []⟩, .ok [], .ok ⟨[], []⟩,
         fun _ _ => .error ⟨"X", "x"⟩, "rid", "iso", "utc",
         fun _ => "dig"⟩ (1/1000)
        (get_daily_narrative ⟨"template", 10, none, some 0⟩
          ⟨true, "0", "sk", true⟩
          ⟨.ok [], .ok ⟨"d", []⟩, .ok [], .ok ⟨[], []⟩,
           fun _ _ => .error ⟨"X", "x"⟩, "rid", "iso", "utc",
           fun _ => "dig"⟩ 0 []).2.1).1) "cache_used" = some (.vBool true) ∧
    dget (metaOf (get_daily_narrative ⟨"template", 10, none, some 0⟩
        ⟨true, "0", "sk", true⟩
        ⟨.ok [], .ok ⟨"d", []⟩, .ok [], .ok ⟨[], []⟩,
         fun _ _ => .error ⟨"X", "x"⟩, "rid", "iso", "utc",
         fun _ => "dig"⟩ (1/1000)
        (get_daily_narrative ⟨"template", 10, none, some 0⟩
          ⟨true, "0", "sk", true⟩
          ⟨.ok [], .ok ⟨"d", []⟩, .ok [], .ok ⟨[], []⟩,
           fun _ _ => .error ⟨"X", "x"⟩, "rid", "iso", "utc",
           fun _ => "dig"⟩ 0 []).2.1).1) "cache_expires_in_s" =
      some (.vFloat 10) ∧
    ¬ ((10 : ℚ) < ((10 : Int) : ℚ)) := by
  have hc1 := get_daily_narrative_miss_cache ⟨"template", 10, none, some 0⟩
    ⟨true, "0", "sk", true⟩
    ⟨.ok [], .ok ⟨"d", []⟩, .ok [], .ok ⟨[], []⟩,
     fun _ _ => .error ⟨"X", "x"⟩, "rid", "iso", "utc",
     fun _ => "dig"⟩ 0 [] (fun e he => nomatch he) (by decide)
  have hget2 : cacheGet (get_daily_narrative ⟨"template", 10, none, some 0⟩
      ⟨true, "0", "sk", true⟩
      ⟨.ok [], .ok ⟨"d", []⟩, .ok [], .ok ⟨[], []⟩,
       fun _ _ => .error ⟨"X", "x"⟩, "rid", "iso", "utc",
       fun _ => "dig"⟩ 0 []).2.1
      (build_cache_key "template" (cap_ttl 10) "today" none
        (parse_trends_override (some 0))
        ((parse_trends_override (some 0)).getD true)
        (ai_allowed_of "0" "sk") false) =
      some ⟨0 + ((cap_ttl 10 : Int) : ℚ),
        (fresh_response ⟨"template", 10, none, some 0⟩ ⟨true, "0", "sk", true⟩
          ⟨.ok [], .ok ⟨"d", []⟩, .ok [], .ok ⟨[], []⟩,
           fun _ _ => .error ⟨"X", "x"⟩, "rid", "iso", "utc",
           fun _ => "dig"⟩ (cap_ttl 10) (parse_trends_override (some 0))
          ((parse_trends_override (some 0)).getD true)
          (ai_allowed_of "0" "sk")
          (build_cache_key "template" (cap_ttl 10) "today" none
            (parse_trends_override (some 0))
            ((parse_trends_override (some 0)).getD true)
            (ai_allowed_of "0" "sk") false)).1⟩ := by
    rw [hc1]
    exact cacheGet_cacheSet_self _ _ _
  have hh := get_daily_narrative_hit ⟨"template", 10, none, some 0⟩
    ⟨true, "0", "sk", true⟩
    ⟨.ok [], .ok ⟨"d", []⟩, .ok [], .ok ⟨[], []⟩,
     fun _ _ => .error ⟨"X", "x"⟩, "rid", "iso", "utc",
     fun _ => "dig"⟩ (1/1000) _ _ hget2 (by norm_num [cap_ttl, MAX_CACHE_TTL])
  obtain ⟨raw0, meta0, hraw2, hmeta2⟩ :
      ∃ r m, dget (fresh_response ⟨"template", 10, none, some 0⟩
        ⟨true, "0", "sk", true⟩
        ⟨.ok [], .ok ⟨"d", []⟩, .ok [], .ok ⟨[], []⟩,
         fun _ _ => .error ⟨"X", "x"⟩, "rid", "iso", "utc",
         fun _ => "dig"⟩ (cap_ttl 10) (parse_trends_override (some 0))
        ((parse_trends_override (some 0)).getD true)
        (ai_allowed_of "0" "sk")
        (build_cache_key "template" (cap_ttl 10) "today" none
          (parse_trends_override (some 0))
          ((parse_trends_override (some 0)).getD true)
          (ai_allowed_of "0" "sk") false)).1 "raw" = some (.vDict r) ∧
        dget r "meta" = some (.vDict m) :=
    ⟨_, _, fresh_response_dget_raw _ _ _ _ _ _ _ _, dget_nd_meta _ _ _⟩
  rw [hh]
  rw [(metaOf_serve_hit _ raw0 meta0 _ _ _ _ hraw2 hmeta2).1]
  refine ⟨(dget_dupdate_hit_fields _ _ _ _ _).1, ?_, by norm_num⟩
  have h10 : ((⟨0 + ((cap_ttl 10 : Int) : ℚ), (fresh_response
      ⟨"template", 10, none, some 0⟩ ⟨true, "0", "sk", true⟩
      ⟨.ok [], .ok ⟨"d", []⟩, .ok [], .ok ⟨[], []⟩,
       fun _ _ => .error ⟨"X", "x"⟩, "rid", "iso", "utc",
       fun _ => "dig"⟩ (cap_ttl 10) (parse_trends_override (some 0))
      ((parse_trends_override (some 0)).getD true)
      (ai_allowed_of "0" "sk")
      (build_cache_key "template" (cap_ttl 10) "today" none
        (parse_trends_override (some 0))
        ((parse_trends_override (some 0)).getD true)
        (ai_allowed_of "0" "sk") false)).1⟩ : CacheEntry).expires_at -
      1/1000 : ℚ) = 9999/1000 := by
    show ((0 + ((cap_ttl 10 : Int) : ℚ)) - 1/1000 : ℚ) = 9999/1000
    norm_num [cap_ttl, MAX_CACHE_TTL]
  rw [h10]
  have hf : ⌊((9999:ℚ)/1000 * 100)⌋ = (999:ℤ) := by
    rw [Int.floor_eq_iff]
    constructor <;> norm_num
  have hr : pyRound2 (9999/1000) = 10 := by
    simp only [pyRound2]
    rw [hf]
    norm_num
  have hfields := (dget_dupdate_hit_fields meta0
    (build_cache_key "template" (cap_ttl 10) "today" none
      (parse_trends_override (some 0))
      ((parse_trends_override (some 0)).getD true)
      (ai_allowed_of "0" "sk") false) (cap_ttl 10) (9999/1000) "rid").2.2.1
  rw [hr] at hfields
  exact hfields

/-- C8 (amended): with a positive requested TTL (so caching is active; the
stored window is the capped `min(ttl, 120)` seconds), a second identical
request that arrives at least 0.01 s after the response was cached — the
reporting granularity of `round(expires_in, 2)` — and before the stored
entry's expiry returns raw.meta.cache_used=true and a
raw.meta.cache_expires_in_s strictly less than the originally requested
TTL. -/
theorem claim8_cache_hit_amended (req : Req) (env : Env) (o o2 : Oracle)
    (now1 now2 : ℚ) (cache : Cache)
    (hpos : 0 < req.cache_ttl)
    (hmiss : cache_miss cache
      (build_cache_key req.mode (cap_ttl req.cache_ttl) "today" req.format
        (parse_trends_override req.trends)
        ((parse_trends_override req.trends).getD env.enableTrendsEnv)
        (ai_allowed_of env.disableAi env.openaiKey) false) now1)
    (helap : now1 + 1/100 ≤ now2)
    (hlive : now2 < now1 + ((cap_ttl req.cache_ttl : Int) : ℚ)) :
    dget (metaOf (get_daily_narrative req env o2 now2
        (get_daily_narrative req env o now1 cache).2.1).1) "cache_used" =
      some (.vBool true) ∧
    ∃ q, dget (metaOf (get_daily_narrative req env o2 now2
        (get_daily_narrative req env o now1 cache).2.1).1)
        "cache_expires_in_s" = some (.vFloat q) ∧ q < (req.cache_ttl : ℚ) := by
  have hposc : 0 < cap_ttl req.cache_ttl := by
    simp only [cap_ttl, MAX_CACHE_TTL]
    omega
  have hcap : cap_ttl req.cache_ttl ≤ req.cache_ttl := by
    simp only [cap_ttl, MAX_CACHE_TTL]
    omega
  have hcapQ : ((cap_ttl req.cache_ttl : Int) : ℚ) ≤ (req.cache_ttl : ℚ) := by
    exact_mod_cast hcap
  have hc1 := get_daily_narrative_miss_cache req env o now1 cache hmiss hposc
  have hget2 : cacheGet (get_daily_narrative req env o now1 cache).2.1
      (build_cache_key req.mode (cap_ttl req.cache_ttl) "today" req.format
        (parse_trends_override req.trends)
        ((parse_trends_override req.trends).getD env.enableTrendsEnv)
        (ai_allowed_of env.disableAi env.openaiKey) false) =
      some ⟨now1 + ((cap_ttl req.cache_ttl : Int) : ℚ),
        (fresh_response req env o (cap_ttl req.cache_ttl)
          (parse_trends_override req.trends)
          ((parse_trends_override req.trends).getD env.enableTrendsEnv)
          (ai_allowed_of env.disableAi env.openaiKey)
          (build_cache_key req.mode (cap_ttl req.cache_ttl) "today" req.format
            (parse_trends_override req.trends)
            ((parse_trends_override req.trends).getD env.enableTrendsEnv)
            (ai_allowed_of env.disableAi env.openaiKey) false)).1⟩ := by
    rw [hc1]
    exact cacheGet_cacheSet_self _ _ _
  have hh := get_daily_narrative_hit req env o2 now2 _ _ hget2 hlive
  obtain ⟨raw0, meta0, hraw2, hmeta2⟩ :
      ∃ r m, dget (fresh_response req env o (cap_ttl req.cache_ttl)
        (parse_trends_override req.trends)
        ((parse_trends_override req.trends).getD env.enableTrendsEnv)
        (ai_allowed_of env.disableAi env.openaiKey)
        (build_cache_key req.mode (cap_ttl req.cache_ttl) "today" req.format
          (parse_trends_override req.trends)
          ((parse_trends_override req.trends).getD env.enableTrendsEnv)
          (ai_allowed_of env.disableAi env.openaiKey) false)).1 "raw" =
          some (.vDict r) ∧
        dget r "meta" = some (.vDict m) :=
    ⟨_, _, fresh_response_dget_raw _ _ _ _ _ _ _ _, dget_nd_meta _ _ _⟩
  rw [hh]
  rw [(metaOf_serve_hit _ raw0 meta0 _ _ _ _ hraw2 hmeta2).1]
  refine ⟨(dget_dupdate_hit_fields _ _ _ _ _).1,
    pyRound2 (now1 + ((cap_ttl req.cache_ttl : Int) : ℚ) - now2),
    (dget_dupdate_hit_fields _ _ _ _ _).2.2.1, ?_⟩
  have hd := abs_le.mp (pyRound2_dist
    (now1 + ((cap_ttl req.cache_ttl : Int) : ℚ) - now2))
  linarith [hd.1, hd.2, hcapQ, helap]

/-- Witness for C8 (amended): first call at t=0 with TTL 10, second
identical call at t=0.02. -/
theorem claim8_cache_hit_amended_witness :
    dget (metaOf (get_daily_narrative ⟨"template", 10, none, some 0⟩
        ⟨true, "0", "sk", true⟩
        ⟨.ok [], .ok ⟨"d", []⟩, .ok [], .ok ⟨[], []⟩,
         fun _ _ => .error ⟨"X", "x"⟩, "rid", "iso", "utc",
         fun _ => "dig"⟩ (1/50)
        (get_daily_narrative ⟨"template", 10, none, some 0⟩
          ⟨true, "0", "sk", true⟩
          ⟨.ok [], .ok ⟨"d", []⟩, .ok [], .ok ⟨[], []⟩,
           fun _ _ => .error ⟨"X", "x"⟩, "rid", "iso", "utc",
           fun _ => "dig"⟩ 0 []).2.1).1) "cache_used" = some (.vBool true) :=
  (claim8_cache_hit_amended ⟨"template", 10, none, some 0⟩
    ⟨true, "0", "sk", true⟩
    ⟨.ok [], .ok ⟨"d", []⟩, .ok [], .ok ⟨[], []⟩,
     fun _ _ => .error ⟨"X", "x"⟩, "rid", "iso", "utc",
     fun _ => "dig"⟩
    ⟨.ok [], .ok ⟨"d", []⟩, .ok [], .ok ⟨[], []⟩,
     fun _ _ => .error ⟨"X", "x"⟩, "rid", "iso", "utc",
     fun _ => "dig"⟩ 0 (1/50) [] (by decide)
    (fun e he => nomatch he) (by norm_num)
    (by norm_num [cap_ttl, MAX_CACHE_TTL])).1

theorem fresh_raw_dget (req : Req) (env : Env) (o : Oracle) (ttl : Int)
    (override : Option Bool) (eff ai : Bool) (key : String) (k : String)
    (v : Val) (h : dget (narrative_data_of o (run_fanout env o eff)) k = some v) :
    dget (rawOf (fresh_response req env o ttl override eff ai key).1) k =
      some v := by
  rw [rawOf_fresh]
  exact dget_append_some _ h

theorem fresh_soft_dget (req : Req) (env : Env) (o : Oracle) (ttl : Int)
    (override : Option Bool) (eff ai : Bool) (key : String) (k : String)
    (h1 : k ∈ ALLOWED_SOFT_ERROR_KEYS) (h2 : k ≠ "ai")
    (h3 : k ≠ "template") :
    dget (softErrorsOf (fresh_response req env o ttl override eff ai key).1) k =
      Option.map Val.vStr (sget (seed_soft_errors (run_fanout env o eff)) k) := by
  rw [softErrorsOf_fresh]
  rw [sanitize_of_se _ _ (vres_se_nodup _ _ _ _ _ (seed_keys _).1)
    (vres_se_allowed _ _ _ _ _ (seed_keys _).2.1) h1]
  rw [vres_se_other _ _ _ _ _ _ h2 h3]

/-- C5: fan-out isolation — on the fresh (uncached) path, a thrown fault in
one source fetch is caught and recorded for that source only: the failed
source's raw slot falls back to its empty default, a soft-error entry
"label: fault" is recorded under that source's key, a succeeding source's
data populates the raw payload with no soft-error entry regardless of the
other sources' faults, and the request itself never aborts (ok=true).
Trends behaves the same whenever it is effectively enabled and the agent
is importable. -/
theorem claim5_fanout_isolation (req : Req) (env : Env) (o : Oracle)
    (now : ℚ) (cache : Cache)
    (hmiss : cache_miss cache
      (build_cache_key req.mode (cap_ttl req.cache_ttl) "today" req.format
        (parse_trends_override req.trends)
        ((parse_trends_override req.trends).getD env.enableTrendsEnv)
        (ai_allowed_of env.disableAi env.openaiKey) false) now) :
    dget (get_daily_narrative req env o now cache).1 "ok" =
      some (.vBool true) ∧
    (∀ e, o.games = .error e →
      dget (rawOf (get_daily_narrative req env o now cache).1) "games_today" =
        some (.vList []) ∧
      dget (softErrorsOf (get_daily_narrative req env o now cache).1)
        "games_today" = some (.vStr ("games_today: " ++ e.text))) ∧
    (∀ gs, o.games = .ok gs →
      dget (rawOf (get_daily_narrative req env o now cache).1) "games_today" =
        some (.vList gs) ∧
      dget (softErrorsOf (get_daily_narrative req env o now cache).1)
        "games_today" = none) ∧
    (∀ e, o.odds = .error e →
      dget (rawOf (get_daily_narrative req env o now cache).1) "odds" =
        some .vNone ∧
      dget (softErrorsOf (get_daily_narrative req env o now cache).1)
        "odds" = some (.vStr ("odds: " ++ e.text))) ∧
    (∀ od, o.odds = .ok od →
      dget (rawOf (get_daily_narrative req env o now cache).1) "odds" =
        some od.toVal ∧
      dget (softErrorsOf (get_daily_narrative req env o now cache).1)
        "odds" = none) ∧
    (∀ e, o.player_props = .error e →
      dget (rawOf (get_daily_narrative req env o now cache).1) "player_props" =
        some (.vList []) ∧
      dget (softErrorsOf (get_daily_narrative req env o now cache).1)
        "player_props" = some (.vStr ("player_props: " ++ e.text))) ∧
    (∀ ps, o.player_props = .ok ps →
      dget (rawOf (get_daily_narrative req env o now cache).1) "player_props" =
        some (.vList ps) ∧
      dget (softErrorsOf (get_daily_narrative req env o now cache).1)
        "player_props" = none) ∧
    (∀ e, o.trendsFetch = .error e →
      (parse_trends_override req.trends).getD env.enableTrendsEnv = true →
      env.trendsAgentAvailable = true →
      dget (rawOf (get_daily_narrative req env o now cache).1) "team_trends" =
        some (.vList []) ∧
      dget (softErrorsOf (get_daily_narrative req env o now cache).1)
        "trends" = some (.vStr ("trends: " ++ e.text))) ∧
    (∀ td, o.trendsFetch = .ok td →
      (parse_trends_override req.trends).getD env.enableTrendsEnv = true →
      env.trendsAgentAvailable = true →
      dget (rawOf (get_daily_narrative req env o now cache).1) "team_trends" =
        some (.vList td.team_trends) ∧
      dget (softErrorsOf (get_daily_narrative req env o now cache).1)
        "trends" = none) := by
  rw [(get_daily_narrative_miss req env o now cache hmiss).1]
  refine ⟨fresh_response_dget_ok _ _ _ _ _ _ _ _, ?_, ?_, ?_, ?_, ?_, ?_, ?_, ?_⟩
  · intro e he
    constructor
    · exact fresh_raw_dget _ _ _ _ _ _ _ _ _ _
        (by simp [narrative_data_of, dget, run_fanout, he, safeResult])
    · rw [fresh_soft_dget _ _ _ _ _ _ _ _ _ (by decide) (by decide) (by decide),
        (sget_seed _).1]
      simp [run_fanout, he, safeResult]
  · intro gs hgs
    constructor
    · exact fresh_raw_dget _ _ _ _ _ _ _ _ _ _
        (by simp [narrative_data_of, dget, run_fanout, hgs, safeResult])
    · rw [fresh_soft_dget _ _ _ _ _ _ _ _ _ (by decide) (by decide) (by decide),
        (sget_seed _).1]
      simp [run_fanout, hgs, safeResult]
  · intro e he
    constructor
    · exact fresh_raw_dget _ _ _ _ _ _ _ _ _ _
        (by simp [narrative_data_of, dget, run_fanout, he, safeResult])
    · rw [fresh_soft_dget _ _ _ _ _ _ _ _ _ (by decide) (by decide) (by decide),
        (sget_seed _).2.1]
      simp [run_fanout, he, safeResult]
  · intro od hod
    constructor
    · exact fresh_raw_dget _ _ _ _ _ _ _ _ _ _
        (by simp [narrative_data_of, dget, run_fanout, hod, safeResult])
    · rw [fresh_soft_dget _ _ _ _ _ _ _ _ _ (by decide) (by decide) (by decide),
        (sget_seed _).2.1]
      simp [run_fanout, hod, safeResult]
  · intro e he
    constructor
    · exact fresh_raw_dget _ _ _ _ _ _ _ _ _ _
        (by simp [narrative_data_of, dget, run_fanout, he, safeResult])
    · rw [fresh_soft_dget _ _ _ _ _ _ _ _ _ (by decide) (by decide) (by decide),
        (sget_seed _).2.2.2]
      simp [run_fanout, he, safeResult]
  · intro ps hps
    constructor
    · exact fresh_raw_dget _ _ _ _ _ _ _ _ _ _
        (by simp [narrative_data_of, dget, run_fanout, hps, safeResult])
    · rw [fresh_soft_dget _ _ _ _ _ _ _ _ _ (by decide) (by decide) (by decide),
        (sget_seed _).2.2.2]
      simp [run_fanout, hps, safeResult]
  · intro e he heff hav
    constructor
    · exact fresh_raw_dget _ _ _ _ _ _ _ _ _ _
        (by simp [narrative_data_of, dget, run_fanout, he, heff, hav, safeResult])
    · rw [fresh_soft_dget _ _ _ _ _ _ _ _ _ (by decide) (by decide) (by decide),
        (sget_seed _).2.2.1]
      simp [run_fanout, he, heff, hav, safeResult]
  · intro td htd heff hav
    constructor
    · exact fresh_raw_dget _ _ _ _ _ _ _ _ _ _
        (by simp [narrative_data_of, dget, run_fanout, htd, heff, hav, safeResult])
    · rw [fresh_soft_dget _ _ _ _ _ _ _ _ _ (by decide) (by decide) (by decide),
        (sget_seed _).2.2.1]
      simp [run_fanout, htd, heff, hav, safeResult]

/-- Witness for C5: concrete request where odds throws while the other
sources succeed. -/
theorem claim5_fanout_isolation_witness :
    dget (get_daily_narrative ⟨"template", 10, none, some 1⟩
        ⟨true, "0", "sk", true⟩
        ⟨.ok [], .error ⟨"ValueError", "odds down"⟩, .ok [], .ok ⟨[], []⟩,
         fun _ _ => .error ⟨"X", "x"⟩, "rid", "iso", "utc",
         fun _ => "dig"⟩ 0 []).1 "ok" = some (.vBool true) :=
  (claim5_fanout_isolation ⟨"template", 10, none, some 1⟩
    ⟨true, "0", "sk", true⟩
    ⟨.ok [], .error ⟨"ValueError", "odds down"⟩, .ok [], .ok ⟨[], []⟩,
     fun _ _ => .error ⟨"X", "x"⟩, "rid", "iso", "utc",
     fun _ => "dig"⟩ 0 [] (fun e he => nomatch he)).1

end NarrativeSpec
